import Mathlib

/-!
# WavyTune renderer: buffer aggregation and binding

A shallow embedding of `src/Renderer/concrete_renderer.cpp` and
`src/WavyTune/render_builder.cpp`.

* C++ objects become structures, member functions become functions that take
  the object and return the updated object.
* `unsigned` arithmetic is `Nat` arithmetic reduced modulo `2^32`.
* Functions that can throw return `Except RendererException _`.
* Calls into the graphics driver are recorded, in order, in the `GLContext`;
  calls on a `VBO` are recorded, in order, on that `VBO` object.
-/

namespace WavyTune

/-! ## Constants of the graphics API (`GL/glew.h`) -/

def GL_NO_ERROR : Nat := 0
def GL_INVALID_ENUM : Nat := 0x0500
def GL_INVALID_VALUE : Nat := 0x0501
def GL_INVALID_OPERATION : Nat := 0x0502
def GL_STACK_OVERFLOW : Nat := 0x0503
def GL_STACK_UNDERFLOW : Nat := 0x0504
def GL_OUT_OF_MEMORY : Nat := 0x0505
def GL_INVALID_FRAMEBUFFER_OPERATION : Nat := 0x0506
def GL_TABLE_TOO_LARGE : Nat := 0x8031
def GL_ARRAY_BUFFER : Nat := 0x8892
def GL_VERTEX_ARRAY : Nat := 0x8074

/-- Number of values of the C++ type `unsigned` (32 bits). -/
def UNSIGNED_RANGE : Nat := 4294967296

/-- The C++ statement `total += x` on an `unsigned total`: addition modulo `2^32`. -/
def unsignedAdd (total x : Nat) : Nat := (total + x) % UNSIGNED_RANGE

/-- Implicit conversion of a `GLint` to a `GLuint` argument (reduction modulo `2^32`). -/
def toGLuint (i : Int) : Nat := (i % 4294967296).toNat

/-! ## Geometry data -/

/-- The type `glm::vec3`: three floats (kept as rationals; 12 bytes on the GPU). -/
structure Vec3 where
  x : ℚ
  y : ℚ
  z : ℚ
deriving DecidableEq

/-- The type `glm::vec4`: four floats (kept as rationals; 16 bytes on the GPU). -/
structure Vec4 where
  x : ℚ
  y : ℚ
  z : ℚ
  w : ℚ
deriving DecidableEq

/-- Modelled from the spec: the class `DrawData3` (`Graphics/draw_data3.h` is not
among the sources). An ordered sequence of `vec3`; its GPU byte size is
`elementSize × count` with an element size of 12 bytes. -/
structure DrawData3 where
  data : List Vec3 := []
deriving DecidableEq

def DrawData3.setData (_d : DrawData3) (data : List Vec3) : DrawData3 := { data := data }

def DrawData3.getData (d : DrawData3) : List Vec3 := d.data

/-- Modelled from the spec: `DrawData3::getGPUSize`, `elementSize × vertexCount`
with `elementSize = 12` (three 4-byte floats). -/
def DrawData3.getGPUSize (d : DrawData3) : Nat := 12 * d.data.length

/-- Modelled from the spec: the class `ColourData` (`Graphics/colour_data.h` is not
among the sources). An ordered sequence of `vec4`; its GPU byte size is
`elementSize × count` with an element size of 16 bytes. -/
structure ColourData where
  data : List Vec4 := []
deriving DecidableEq

def ColourData.setData (_d : ColourData) (data : List Vec4) : ColourData := { data := data }

def ColourData.getData (d : ColourData) : List Vec4 := d.data

/-- Modelled from the spec: `ColourData::getGPUSize`, `elementSize × vertexCount`
with `elementSize = 16` (four 4-byte floats). -/
def ColourData.getGPUSize (d : ColourData) : Nat := 16 * d.data.length

/-- Modelled from the spec: the class `DrawBuffer` (`Graphics/draw_buffer.h` is not
among the sources): a triple of position, normal and colour sequences. The three
setters are independent; nothing checks that the lengths agree. -/
structure DrawBuffer where
  vertices : DrawData3 := {}
  normals : DrawData3 := {}
  colours : ColourData := {}
deriving DecidableEq

def DrawBuffer.setVertices (b : DrawBuffer) (v : DrawData3) : DrawBuffer := { b with vertices := v }

def DrawBuffer.setNormals (b : DrawBuffer) (n : DrawData3) : DrawBuffer := { b with normals := n }

def DrawBuffer.setColours (b : DrawBuffer) (c : ColourData) : DrawBuffer := { b with colours := c }

def DrawBuffer.get_vertices (b : DrawBuffer) : DrawData3 := b.vertices

def DrawBuffer.get_normals (b : DrawBuffer) : DrawData3 := b.normals

def DrawBuffer.get_colours (b : DrawBuffer) : ColourData := b.colours

/-- An `Entity*`: the entity is used only as a key, so it is kept as its address. -/
abbrev EntityPtr := Nat

/-! ## GPU objects -/

/-- The enumeration `BUFFER_TYPE`, the keys of `vbos_`. -/
inductive BUFFER_TYPE where
  | VERTEX
  | NORMAL
  | COLOUR
deriving DecidableEq

/-- The enumeration `VERTEX_TYPE`; the source uses only `FLOAT`. -/
inductive VERTEX_TYPE where
  | FLOAT
deriving DecidableEq

/-- A call received by a `VBO` object. -/
inductive VBOCall where
  | allocateMemory (size : Nat)
  | addData3 (data : List Vec3) (offset : Nat)
  | addData4 (data : List Vec4) (offset : Nat)
deriving DecidableEq

/-- Modelled from the spec: the class `VBO` (`GLAbstractions/vbo.h` is not among the
sources). The object is kept as its GL name and the record, oldest first, of the
`allocateMemory` and `addData` calls made on it. -/
structure VBO where
  id : Nat
  calls : List VBOCall := []
deriving DecidableEq

def VBO.getId (v : VBO) : Nat := v.id

def VBO.allocateMemory (v : VBO) (size : Nat) : VBO :=
  { v with calls := v.calls ++ [VBOCall.allocateMemory size] }

def VBO.addData3 (v : VBO) (data : List Vec3) (offset : Nat) : VBO :=
  { v with calls := v.calls ++ [VBOCall.addData3 data offset] }

def VBO.addData4 (v : VBO) (data : List Vec4) (offset : Nat) : VBO :=
  { v with calls := v.calls ++ [VBOCall.addData4 data offset] }

/-- Modelled from the spec: the class `VertexAttribute`
(`GLAbstractions/vertex_attribute.h` is not among the sources): component count,
element type, normalisation flag, stride and byte offset, each with a setter. -/
structure VertexAttribute where
  offset : Nat := 0
  size : Nat := 0
  normalised : Bool := false
  stride : Nat := 0
  type : VERTEX_TYPE := VERTEX_TYPE.FLOAT
deriving DecidableEq

def VertexAttribute.setOffset (a : VertexAttribute) (o : Nat) : VertexAttribute := { a with offset := o }

def VertexAttribute.setSize (a : VertexAttribute) (s : Nat) : VertexAttribute := { a with size := s }

def VertexAttribute.setNormalised (a : VertexAttribute) (n : Bool) : VertexAttribute :=
  { a with normalised := n }

def VertexAttribute.setStride (a : VertexAttribute) (s : Nat) : VertexAttribute := { a with stride := s }

def VertexAttribute.setType (a : VertexAttribute) (t : VERTEX_TYPE) : VertexAttribute :=
  { a with type := t }

def VertexAttribute.getOffset (a : VertexAttribute) : Nat := a.offset

def VertexAttribute.getSize (a : VertexAttribute) : Nat := a.size

def VertexAttribute.getNormalised (a : VertexAttribute) : Bool := a.normalised

def VertexAttribute.getStride (a : VertexAttribute) : Nat := a.stride

def VertexAttribute.getType (a : VertexAttribute) : VERTEX_TYPE := a.type

/-- Modelled from the spec: the class `VAO` (`GLAbstractions/vao.h` is not among the
sources). The object is kept as its GL name and the (buffer, descriptor) pairs
recorded by `addBufferConfigs`, oldest first. -/
structure VAO where
  id : Nat
  configs : List (VBO × VertexAttribute) := []
deriving DecidableEq

def VAO.getId (v : VAO) : Nat := v.id

def VAO.addBufferConfigs (v : VAO) (vbo : VBO) (attrib : VertexAttribute) : VAO :=
  { v with configs := v.configs ++ [(vbo, attrib)] }

/-- Modelled from the spec: the class `ShaderProgram` (`Shaders/shader_program.h` is
not among the sources), kept as the address of the linked program. -/
structure ShaderProgram where
  address : Nat
deriving DecidableEq

def ShaderProgram.get_address (s : ShaderProgram) : Nat := s.address

/-- A call into the graphics driver made while synchronising. -/
inductive GLCall where
  | use (program : Nat)
  | unuse (program : Nat)
  | glBindVertexArray (array : Nat)
  | glBindBuffer (target : Nat) (buffer : Nat)
  | glVertexAttribPointer (index : Nat) (size : Nat) (type : VERTEX_TYPE)
      (normalized : Bool) (stride : Nat) (pointer : Nat)
deriving DecidableEq

/-- The graphics context: the driver calls made so far (oldest first), the error
codes that successive `glGetError` calls will report (after them it reports
`GL_NO_ERROR`), and the answer of `glGetAttribLocation` for each program and
attribute name (`-1` when the name is not an active attribute). -/
structure GLContext where
  calls : List GLCall := []
  errors : List Nat := []
  attribLocation : Nat → String → Int

def GLContext.call (gl : GLContext) (c : GLCall) : GLContext :=
  { gl with calls := gl.calls ++ [c] }

def glGetAttribLocation (gl : GLContext) (program : Nat) (name : String) : Int :=
  gl.attribLocation program name

def glGetError (gl : GLContext) : Nat × GLContext :=
  match gl.errors with
  | [] => (GL_NO_ERROR, gl)
  | code :: rest => (code, { gl with errors := rest })

/-! ## The error poller (`getError`, lines 23-58) -/

/-- The `switch (error)` of `getError`: one `push_back` per known code, nothing for
any other value. -/
def errorSwitch (error : Nat) (retVal : List String) : List String :=
  if error = GL_INVALID_ENUM then retVal ++ ["Invalid enum."]
  else if error = GL_INVALID_VALUE then retVal ++ ["Invalid function value."]
  else if error = GL_INVALID_OPERATION then retVal ++ ["Invalid operation."]
  else if error = GL_STACK_OVERFLOW then retVal ++ ["stack overflow."]
  else if error = GL_STACK_UNDERFLOW then retVal ++ ["stack underflow."]
  else if error = GL_OUT_OF_MEMORY then retVal ++ ["Out of memory."]
  else if error = GL_INVALID_FRAMEBUFFER_OPERATION then retVal ++ ["Invalid framebuffer operation."]
  else if error = GL_TABLE_TOO_LARGE then retVal ++ ["Table is too large."]
  else retVal

/-- The loop `while (error = glGetError() != GL_NO_ERROR) { switch (error) ... }`,
run on the codes still pending. `!=` binds tighter than `=`, so `error` receives
the value of the comparison (1 or 0), not the code. Returns the strings and the
codes left pending. -/
def getErrorLoop : List Nat → List String → List String × List Nat
  | [], retVal => (retVal, [])
  | code :: rest, retVal =>
    let error : Nat := if code ≠ GL_NO_ERROR then 1 else 0
    if error ≠ 0 then getErrorLoop rest (errorSwitch error retVal) else (retVal, rest)

/-- The function `getError`: the first `glGetError()` result initialises `error` and
is overwritten by the loop condition before it is looked at. -/
def getError (gl : GLContext) : List String × GLContext :=
  let first := glGetError gl
  let looped := getErrorLoop first.2.errors []
  (looped.1, { first.2 with errors := looped.2 })

/-- What the spec says `drain()` returns: the fixed string of every known code, in
the order reported, up to the first "no error". -/
def drainSpec : List Nat → List String
  | [] => []
  | code :: rest => if code = GL_NO_ERROR then [] else errorSwitch code [] ++ drainSpec rest

/-! ## The renderer (`ConcreteRenderer`) -/

/-- What a member function of the renderer can throw. `NullShaderDereference`
stands for calling a member of the shader through a null `shader_program_`
(undefined behaviour in C++; the embedding stops there). -/
inductive RendererException where
  | VertexBufferNotFoundException
  | NormalBufferNotFoundException
  | ColourBufferNotFoundException
  | NullShaderDereference
deriving DecidableEq

/-- The member `find` of a map: the value stored under `k`, if any. -/
def find {K V : Type} [DecidableEq K] (k : K) : List (K × V) → Option V
  | [] => none
  | (k', v) :: rest => if k = k' then some v else find k rest

/-- Writing through the iterator returned by `find`: `f` is applied to the value
stored under `k`; a table without `k` is left as it is. -/
def modifyFound {K V : Type} [DecidableEq K] (k : K) (f : V → V) : List (K × V) → List (K × V)
  | [] => []
  | (k', v) :: rest => if k = k' then (k', f v) :: rest else (k', v) :: modifyFound k f rest

/-- The member `insert` of `vbos_`: nothing happens when the key is present. The
table is never iterated, so the position of a new entry is immaterial. -/
def vbosInsert (k : BUFFER_TYPE) (v : Option VBO) (m : List (BUFFER_TYPE × Option VBO)) :
    List (BUFFER_TYPE × Option VBO) :=
  match find k m with
  | some _ => m
  | none => m ++ [(k, v)]

/-- Modelled from the spec: the declaration of `entity_data_` (`concrete_renderer.h`
is not among the sources). The spec speaks of "map iteration order"; the table is
kept as a `std::map` keyed by the entity pointer: `insert` places a new key at its
position in key order and does nothing when the key is present. -/
def entityInsert (k : EntityPtr) (v : List DrawBuffer) :
    List (EntityPtr × List DrawBuffer) → List (EntityPtr × List DrawBuffer)
  | [] => [(k, v)]
  | (k', v') :: rest =>
    if k < k' then (k, v) :: (k', v') :: rest
    else if k = k' then (k', v') :: rest
    else (k', v') :: entityInsert k v rest

/-- The class `ConcreteRenderer`. Modelled from the spec: the type of
`points_to_draw_` (declared in `concrete_renderer.h`, not among the sources); the
spec calls the draw count "a single integer", kept here as a natural number. -/
structure ConcreteRenderer where
  shader_program_ : Option ShaderProgram
  vao_ : VAO
  points_to_draw_ : Nat
  vbos_ : List (BUFFER_TYPE × Option VBO)
  entity_data_ : List (EntityPtr × List DrawBuffer)

namespace ConcreteRenderer

/-- The constructor `ConcreteRenderer::ConcreteRenderer` (lines 60-72). The `VAO` and the three `VBO` objects built by
`std::make_unique` are parameters: their constructors are not among the sources. -/
def construct (vao : VAO) (vertex_vbo normal_vbo colour_vbo : VBO) : ConcreteRenderer :=
  { shader_program_ := none
    vao_ := vao
    points_to_draw_ := 0
    vbos_ :=
      vbosInsert BUFFER_TYPE.COLOUR (some colour_vbo)
        (vbosInsert BUFFER_TYPE.NORMAL (some normal_vbo)
          (vbosInsert BUFFER_TYPE.VERTEX (some vertex_vbo) []))
    entity_data_ := [] }

def set_shader (r : ConcreteRenderer) (shader_ptr : Option ShaderProgram) : ConcreteRenderer :=
  { r with shader_program_ := shader_ptr }

def get_shader (r : ConcreteRenderer) : Option ShaderProgram := r.shader_program_

/-- The expression `get_shader()->`: the shader behind the pointer. -/
def shader (r : ConcreteRenderer) : Except RendererException ShaderProgram :=
  match r.get_shader with
  | some s => Except.ok s
  | none => Except.error RendererException.NullShaderDereference

def _get_vertex_vbo (r : ConcreteRenderer) : Except RendererException VBO :=
  match find BUFFER_TYPE.VERTEX r.vbos_ with
  | some (some vbo) => Except.ok vbo
  | _ => Except.error RendererException.VertexBufferNotFoundException

def _get_normal_vbo (r : ConcreteRenderer) : Except RendererException VBO :=
  match find BUFFER_TYPE.NORMAL r.vbos_ with
  | some (some vbo) => Except.ok vbo
  | _ => Except.error RendererException.NormalBufferNotFoundException

def _get_colour_vbo (r : ConcreteRenderer) : Except RendererException VBO :=
  match find BUFFER_TYPE.COLOUR r.vbos_ with
  | some (some vbo) => Except.ok vbo
  | _ => Except.error RendererException.ColourBufferNotFoundException

/-- The effect, on the renderer, of a call made through the `VBO*` obtained for the
category `k`: the object owned by that entry of `vbos_` becomes `vbo`. -/
def storeVBO (r : ConcreteRenderer) (k : BUFFER_TYPE) (vbo : VBO) : ConcreteRenderer :=
  { r with vbos_ := modifyFound k (fun _ => some vbo) r.vbos_ }

/-- The function `_get_vertex_size` (lines 342-351). -/
def _get_vertex_size (r : ConcreteRenderer) : Nat :=
  r.entity_data_.foldl
    (fun total kvPair =>
      kvPair.2.foldl (fun total dataPtr => unsignedAdd total dataPtr.get_vertices.getGPUSize) total)
    0

/-- The function `_get_normal_size` (lines 353-362). -/
def _get_normal_size (r : ConcreteRenderer) : Nat :=
  r.entity_data_.foldl
    (fun total kvPair =>
      kvPair.2.foldl (fun total dataPtr => unsignedAdd total dataPtr.get_normals.getGPUSize) total)
    0

/-- The function `_get_colour_size` (lines 364-373). -/
def _get_colour_size (r : ConcreteRenderer) : Nat :=
  r.entity_data_.foldl
    (fun total kvPair =>
      kvPair.2.foldl (fun total dataPtr => unsignedAdd total dataPtr.get_colours.getGPUSize) total)
    0

/-- The function `add_entity_data` (lines 328-339). -/
def add_entity_data (r : ConcreteRenderer) (entPtr : EntityPtr) (buffer : DrawBuffer) :
    ConcreteRenderer :=
  match find entPtr r.entity_data_ with
  | some _ =>
    { r with entity_data_ := modifyFound entPtr (fun second => second ++ [buffer]) r.entity_data_ }
  | none => { r with entity_data_ := entityInsert entPtr [buffer] r.entity_data_ }

/-- Modelled from the spec: `addEntityData`, the name under which
`render_builder.cpp` registers a buffer (its declaration is not among the
sources); the spec's `register(entity, buffer)`, that is `add_entity_data`. -/
def addEntityData (r : ConcreteRenderer) (entPtr : EntityPtr) (buffer : DrawBuffer) :
    ConcreteRenderer :=
  r.add_entity_data entPtr buffer

/-- The function `allocateGPUMemory` (lines 141-151). -/
def allocateGPUMemory (r : ConcreteRenderer) : Except RendererException ConcreteRenderer := do
  let vertexVBO ← r._get_vertex_vbo
  let r := r.storeVBO BUFFER_TYPE.VERTEX (vertexVBO.allocateMemory r._get_vertex_size)
  let normal_vbo ← r._get_normal_vbo
  let r := r.storeVBO BUFFER_TYPE.NORMAL (normal_vbo.allocateMemory r._get_normal_size)
  let colour_vbo ← r._get_colour_vbo
  let r := r.storeVBO BUFFER_TYPE.COLOUR (colour_vbo.allocateMemory r._get_colour_size)
  pure r

/-- The local variables of `populateBuffers` that its loop updates, with the three
buffer objects the `VBO*` locals point to and the member `points_to_draw_`. -/
structure PopulateState where
  vertexVBO : VBO
  normal_vbo : VBO
  colour_vbo : VBO
  vertexOffset : Nat
  normalOffset : Nat
  colourOffset : Nat
  points_to_draw_ : Nat

/-- The body of the inner loop of `populateBuffers` (lines 165-172). -/
def populateStep (st : PopulateState) (buffer : DrawBuffer) : PopulateState :=
  { vertexVBO := st.vertexVBO.addData3 buffer.get_vertices.getData st.vertexOffset
    vertexOffset := unsignedAdd st.vertexOffset buffer.get_vertices.getGPUSize
    normal_vbo := st.normal_vbo.addData3 buffer.get_normals.getData st.normalOffset
    normalOffset := unsignedAdd st.normalOffset buffer.get_normals.getGPUSize
    colour_vbo := st.colour_vbo.addData4 buffer.get_colours.getData st.colourOffset
    colourOffset := unsignedAdd st.colourOffset buffer.get_colours.getGPUSize
    points_to_draw_ := st.points_to_draw_ + buffer.get_vertices.getData.length }

/-- The two nested loops of `populateBuffers` (lines 163-174). -/
def populateLoop (entity_data : List (EntityPtr × List DrawBuffer)) (st : PopulateState) :
    PopulateState :=
  entity_data.foldl (fun st kvPair => kvPair.2.foldl populateStep st) st

/-- The function `populateBuffers` (lines 153-177). -/
def populateBuffers (r : ConcreteRenderer) : Except RendererException ConcreteRenderer := do
  let vertexVBO ← r._get_vertex_vbo
  let normal_vbo ← r._get_normal_vbo
  let colour_vbo ← r._get_colour_vbo
  let st := populateLoop r.entity_data_
    { vertexVBO := vertexVBO, normal_vbo := normal_vbo, colour_vbo := colour_vbo,
      vertexOffset := 0, normalOffset := 0, colourOffset := 0, points_to_draw_ := 0 }
  let r := { r with points_to_draw_ := st.points_to_draw_ }
  let r := r.storeVBO BUFFER_TYPE.VERTEX st.vertexVBO
  let r := r.storeVBO BUFFER_TYPE.NORMAL st.normal_vbo
  let r := r.storeVBO BUFFER_TYPE.COLOUR st.colour_vbo
  pure r

/-- The function `setUpVertexBufferAttributes` (lines 179-205). -/
def setUpVertexBufferAttributes (r : ConcreteRenderer) (gl : GLContext) :
    Except RendererException (ConcreteRenderer × GLContext) := do
  let vertex_vbo ← r._get_vertex_vbo
  let gl := gl.call (GLCall.glBindBuffer GL_ARRAY_BUFFER vertex_vbo.getId)
  let vertex_attrib : VertexAttribute := {}
  let vertex_attrib := vertex_attrib.setOffset 0
  let vertex_attrib := vertex_attrib.setSize 3
  let vertex_attrib := vertex_attrib.setNormalised false
  let vertex_attrib := vertex_attrib.setStride 0
  let vertex_attrib := vertex_attrib.setType VERTEX_TYPE.FLOAT
  let shader ← r.shader
  let posPtr := glGetAttribLocation gl shader.get_address "aPos"
  let gl := gl.call (GLCall.glVertexAttribPointer (toGLuint posPtr) vertex_attrib.getSize
    vertex_attrib.getType vertex_attrib.getNormalised vertex_attrib.getStride
    vertex_attrib.getOffset)
  let r := { r with vao_ := r.vao_.addBufferConfigs vertex_vbo vertex_attrib }
  let gl := gl.call (GLCall.glBindBuffer GL_ARRAY_BUFFER 0)
  pure (r, gl)

/-- The function `setUpNormalBufferAttributes` (lines 207-233). -/
def setUpNormalBufferAttributes (r : ConcreteRenderer) (gl : GLContext) :
    Except RendererException (ConcreteRenderer × GLContext) := do
  let normal_vbo ← r._get_normal_vbo
  let gl := gl.call (GLCall.glBindBuffer GL_ARRAY_BUFFER normal_vbo.getId)
  let normal_attrib : VertexAttribute := {}
  let normal_attrib := normal_attrib.setOffset 0
  let normal_attrib := normal_attrib.setSize 3
  let normal_attrib := normal_attrib.setNormalised false
  let normal_attrib := normal_attrib.setStride 0
  let normal_attrib := normal_attrib.setType VERTEX_TYPE.FLOAT
  let shader ← r.shader
  let norPtr := glGetAttribLocation gl shader.get_address "aNor"
  let gl := gl.call (GLCall.glVertexAttribPointer (toGLuint norPtr) normal_attrib.getSize
    normal_attrib.getType normal_attrib.getNormalised normal_attrib.getStride
    normal_attrib.getOffset)
  let r := { r with vao_ := r.vao_.addBufferConfigs normal_vbo normal_attrib }
  let gl := gl.call (GLCall.glBindBuffer GL_VERTEX_ARRAY 0)
  pure (r, gl)

/-- The function `setUpColourBufferAttributes` (lines 235-261). -/
def setUpColourBufferAttributes (r : ConcreteRenderer) (gl : GLContext) :
    Except RendererException (ConcreteRenderer × GLContext) := do
  let colour_vbo ← r._get_colour_vbo
  let gl := gl.call (GLCall.glBindBuffer GL_ARRAY_BUFFER colour_vbo.getId)
  let colour_attribute : VertexAttribute := {}
  let colour_attribute := colour_attribute.setOffset 0
  let colour_attribute := colour_attribute.setSize 4
  let colour_attribute := colour_attribute.setNormalised true
  let colour_attribute := colour_attribute.setStride 0
  let colour_attribute := colour_attribute.setType VERTEX_TYPE.FLOAT
  let shader ← r.shader
  let colPtr := glGetAttribLocation gl shader.get_address "aCol"
  let gl := gl.call (GLCall.glVertexAttribPointer (toGLuint colPtr) colour_attribute.getSize
    colour_attribute.getType colour_attribute.getNormalised colour_attribute.getStride
    colour_attribute.getOffset)
  let r := { r with vao_ := r.vao_.addBufferConfigs colour_vbo colour_attribute }
  let gl := gl.call (GLCall.glBindBuffer GL_VERTEX_ARRAY 0)
  pure (r, gl)

/-- The function `send_gpu_data` (lines 124-139). -/
def send_gpu_data (r : ConcreteRenderer) (gl : GLContext) :
    Except RendererException (ConcreteRenderer × GLContext) := do
  let r := { r with points_to_draw_ := 0 }
  let shader ← r.shader
  let gl := gl.call (GLCall.use shader.get_address)
  let gl := gl.call (GLCall.glBindVertexArray r.vao_.getId)
  let r ← r.allocateGPUMemory
  let r ← r.populateBuffers
  let (r, gl) ← r.setUpVertexBufferAttributes gl
  let (r, gl) ← r.setUpNormalBufferAttributes gl
  let (r, gl) ← r.setUpColourBufferAttributes gl
  let errors := getError gl
  let gl := errors.2
  let shader ← r.shader
  let gl := gl.call (GLCall.unuse shader.get_address)
  pure (r, gl)

end ConcreteRenderer

/-! ## The builder (`RenderBuilder::buildBarRenderer`) -/

namespace RenderBuilder

/-- The array `vertArray` (lines 20-71). -/
def vertArray : List Vec3 := [
  -- Plane 1
  ⟨-0.5, -0.5, -0.5⟩, ⟨0.5, -0.5, -0.5⟩, ⟨-0.5, 0.5, -0.5⟩,
  ⟨0.5, -0.5, -0.5⟩, ⟨0.5, 0.5, -0.5⟩, ⟨-0.5, 0.5, -0.5⟩,
  -- Plane 2
  ⟨-0.5, -0.5, 0.5⟩, ⟨0.5, -0.5, 0.5⟩, ⟨-0.5, 0.5, 0.5⟩,
  ⟨0.5, -0.5, 0.5⟩, ⟨0.5, 0.5, 0.5⟩, ⟨-0.5, 0.5, 0.5⟩,
  -- Plane 3
  ⟨-0.5, -0.5, -0.5⟩, ⟨-0.5, -0.5, 0.5⟩, ⟨-0.5, 0.5, -0.5⟩,
  ⟨-0.5, -0.5, 0.5⟩, ⟨-0.5, 0.5, 0.5⟩, ⟨-0.5, 0.5, -0.5⟩,
  -- Plane 4
  ⟨0.5, -0.5, -0.5⟩, ⟨0.5, -0.5, 0.5⟩, ⟨0.5, 0.5, -0.5⟩,
  ⟨0.5, -0.5, 0.5⟩, ⟨0.5, 0.5, 0.5⟩, ⟨0.5, 0.5, -0.5⟩,
  -- Plane 5
  ⟨-0.5, 0.5, -0.5⟩, ⟨0.5, 0.5, -0.5⟩, ⟨-0.5, 0.5, 0.5⟩,
  ⟨-0.5, 0.5, 0.5⟩, ⟨0.5, 0.5, -0.5⟩, ⟨0.5, 0.5, 0.5⟩,
  -- Plane 6
  ⟨-0.5, -0.5, -0.5⟩, ⟨0.5, -0.5, -0.5⟩, ⟨-0.5, -0.5, 0.5⟩,
  ⟨-0.5, -0.5, 0.5⟩, ⟨0.5, -0.5, -0.5⟩, ⟨0.5, -0.5, 0.5⟩]

/-- The array `normArray` (lines 76-124). -/
def normArray : List Vec3 := [
  -- Plane 1
  ⟨0, 0, 1⟩, ⟨0, 0, 1⟩, ⟨0, 0, 1⟩, ⟨0, 0, 1⟩, ⟨0, 0, 1⟩, ⟨0, 0, 1⟩,
  -- Plane 2
  ⟨0, 0, 1⟩, ⟨0, 0, 1⟩, ⟨0, 0, 1⟩, ⟨0, 0, 1⟩, ⟨0, 0, 1⟩, ⟨0, 0, 1⟩,
  -- Plane 3
  ⟨0, 0, 1⟩, ⟨0, 0, 1⟩, ⟨0, 0, 1⟩, ⟨0, 0, 1⟩, ⟨0, 0, 1⟩, ⟨0, 0, 1⟩,
  -- Plane 4
  ⟨0, 0, 1⟩, ⟨0, 0, 1⟩, ⟨0, 0, 1⟩, ⟨0, 0, 1⟩, ⟨0, 0, 1⟩, ⟨0, 0, 1⟩,
  -- Plane 5
  ⟨0, 0, 1⟩, ⟨0, 0, 1⟩, ⟨0, 0, 1⟩, ⟨0, 0, 1⟩, ⟨0, 0, 1⟩, ⟨0, 0, 1⟩,
  -- Plane 6
  ⟨0, 0, 1⟩, ⟨0, 0, 1⟩, ⟨0, 0, 1⟩, ⟨0, 0, 1⟩, ⟨0, 0, 1⟩, ⟨0, 0, 1⟩]

/-- The array `colourArray` (lines 129-177). -/
def colourArray : List Vec4 := [
  -- Plane 1
  ⟨0, 1, 0, 1⟩, ⟨0, 1, 0, 1⟩, ⟨0, 1, 0, 1⟩, ⟨0, 1, 0, 1⟩, ⟨0, 1, 0, 1⟩, ⟨0, 1, 0, 1⟩,
  -- Plane 2
  ⟨1, 0, 0, 1⟩, ⟨1, 0, 0, 1⟩, ⟨1, 0, 0, 1⟩, ⟨1, 0, 0, 1⟩, ⟨1, 0, 0, 1⟩, ⟨1, 0, 0, 1⟩,
  -- Plane 3
  ⟨0, 0, 1, 1⟩, ⟨0, 0, 1, 1⟩, ⟨0, 0, 1, 1⟩, ⟨0, 0, 1, 1⟩, ⟨0, 0, 1, 1⟩, ⟨0, 0, 1, 1⟩,
  -- Plane 4
  ⟨0, 1, 0, 1⟩, ⟨0, 1, 0, 1⟩, ⟨0, 1, 0, 1⟩, ⟨0, 1, 0, 1⟩, ⟨0, 1, 0, 1⟩, ⟨0, 1, 0, 1⟩,
  -- Plane 5
  ⟨1, 0, 0, 1⟩, ⟨1, 0, 0, 1⟩, ⟨1, 0, 0, 1⟩, ⟨1, 0, 0, 1⟩, ⟨1, 0, 0, 1⟩, ⟨1, 0, 0, 1⟩,
  -- Plane 6
  ⟨0, 0, 1, 1⟩, ⟨0, 0, 1, 1⟩, ⟨0, 0, 1, 1⟩, ⟨0, 0, 1, 1⟩, ⟨0, 0, 1, 1⟩, ⟨0, 0, 1, 1⟩]

/-- The buffer `barBuffer` as it stands when it is registered (lines 18-180). -/
def barBuffer : DrawBuffer :=
  let barBuffer : DrawBuffer := {}
  let vertices : DrawData3 := {}
  let vertices := vertices.setData vertArray
  let barBuffer := barBuffer.setVertices vertices
  let normals : DrawData3 := {}
  let normals := normals.setData normArray
  let barBuffer := barBuffer.setNormals normals
  let colours : ColourData := {}
  let colours := colours.setData colourArray
  barBuffer.setColours colours

/-- The function `buildBarRenderer` (lines 12-188). The objects made by the
renderer's constructor and the address of the `new Entity` are parameters. -/
def buildBarRenderer (vao : VAO) (vertex_vbo normal_vbo colour_vbo : VBO)
    (barTopEntity : EntityPtr) : ConcreteRenderer :=
  let retVal := ConcreteRenderer.construct vao vertex_vbo normal_vbo colour_vbo
  retVal.addEntityData barTopEntity barBuffer

end RenderBuilder

open ConcreteRenderer

/-! ## Vocabulary of the specification -/

/-- All draw buffers of the aggregate in traversal order: the entries of the map
in iteration order, the buffers of one entity in the order of its list. -/
def traversal : List (EntityPtr × List DrawBuffer) → List DrawBuffer
  | [] => []
  | kvPair :: rest => kvPair.2 ++ traversal rest

/-- The vertex count of a draw buffer: its number of positions. -/
def vertexCount (b : DrawBuffer) : Nat := b.get_vertices.getData.length

/-- The vertex-count invariant of a draw buffer: the three sequences have the
same length. -/
def vertexCountInvariant (b : DrawBuffer) : Prop :=
  b.get_normals.getData.length = vertexCount b ∧ b.get_colours.getData.length = vertexCount b

instance (b : DrawBuffer) : Decidable (vertexCountInvariant b) := by
  unfold vertexCountInvariant; infer_instance

/-- Bytes per vertex of a category: 12 for positions and normals, 16 for colours. -/
def elementSize : BUFFER_TYPE → Nat
  | BUFFER_TYPE.VERTEX => 12
  | BUFFER_TYPE.NORMAL => 12
  | BUFFER_TYPE.COLOUR => 16

/-- The byte size of the data of category `k` held by the draw buffer `b`, as the
renderer reads it (`getGPUSize` of that category's sequence). -/
def gpuSize (k : BUFFER_TYPE) (b : DrawBuffer) : Nat :=
  match k with
  | BUFFER_TYPE.VERTEX => b.get_vertices.getGPUSize
  | BUFFER_TYPE.NORMAL => b.get_normals.getGPUSize
  | BUFFER_TYPE.COLOUR => b.get_colours.getGPUSize

/-- The capacity the spec asks for: the sum over all draw buffers of
`elementSize(category) × vertexCount`. -/
def specCapacity (k : BUFFER_TYPE) (entity_data : List (EntityPtr × List DrawBuffer)) : Nat :=
  ((traversal entity_data).map (fun b => elementSize k * vertexCount b)).sum

/-- The sum over all draw buffers of the byte size of their data of category `k`. -/
def totalBytes (k : BUFFER_TYPE) (entity_data : List (EntityPtr × List DrawBuffer)) : Nat :=
  ((traversal entity_data).map (gpuSize k)).sum

/-- The sum of the vertex counts of all draw buffers. -/
def totalVertexCount (entity_data : List (EntityPtr × List DrawBuffer)) : Nat :=
  ((traversal entity_data).map vertexCount).sum

/-- The getter of the category `k`. -/
def getVBO (k : BUFFER_TYPE) (r : ConcreteRenderer) : Except RendererException VBO :=
  match k with
  | BUFFER_TYPE.VERTEX => r._get_vertex_vbo
  | BUFFER_TYPE.NORMAL => r._get_normal_vbo
  | BUFFER_TYPE.COLOUR => r._get_colour_vbo

/-- The exception that belongs to the category `k`. -/
def notFound : BUFFER_TYPE → RendererException
  | BUFFER_TYPE.VERTEX => RendererException.VertexBufferNotFoundException
  | BUFFER_TYPE.NORMAL => RendererException.NormalBufferNotFoundException
  | BUFFER_TYPE.COLOUR => RendererException.ColourBufferNotFoundException

/-- The calls a buffer object received between the states `before` and `after`. -/
def newCalls (before after : VBO) : List VBOCall := after.calls.drop before.calls.length

/-- The byte sizes of the `allocateMemory` calls in a record. -/
def allocations : List VBOCall → List Nat
  | [] => []
  | VBOCall.allocateMemory size :: rest => size :: allocations rest
  | _ :: rest => allocations rest

/-- Modelled from the spec: the byte range written by each `addData` call of a
record, as (offset, byte count); `upload` writes the bytes of the sequence it is
given (`elementSize × count`) starting at the offset. -/
def uploads : List VBOCall → List (Nat × Nat)
  | [] => []
  | VBOCall.addData3 data offset :: rest => (offset, 12 * data.length) :: uploads rest
  | VBOCall.addData4 data offset :: rest => (offset, 16 * data.length) :: uploads rest
  | _ :: rest => uploads rest

/-- The calls of one category issued by the loop of `populateBuffers` on the
buffers `bs`, starting at the offset `offset`. -/
def uploadCalls (k : BUFFER_TYPE) : List DrawBuffer → Nat → List VBOCall
  | [], _ => []
  | b :: bs, offset =>
    (match k with
      | BUFFER_TYPE.VERTEX => VBOCall.addData3 b.get_vertices.getData offset
      | BUFFER_TYPE.NORMAL => VBOCall.addData3 b.get_normals.getData offset
      | BUFFER_TYPE.COLOUR => VBOCall.addData4 b.get_colours.getData offset)
      :: uploadCalls k bs (unsignedAdd offset (gpuSize k b))

/-- The packing the spec describes: the first range starts at `start`, each
further range starts where the previous one ends. -/
def packed : Nat → List Nat → List (Nat × Nat)
  | _, [] => []
  | start, size :: sizes => (start, size) :: packed (start + size) sizes

/-- The descriptor built for positions and for normals. -/
def float3Attribute : VertexAttribute :=
  { offset := 0, size := 3, normalised := false, stride := 0, type := VERTEX_TYPE.FLOAT }

/-- The descriptor built for colours. -/
def float4NormalisedAttribute : VertexAttribute :=
  { offset := 0, size := 4, normalised := true, stride := 0, type := VERTEX_TYPE.FLOAT }

/-- The renderer `r` holds the shader pointer `s`, the vertex-array object `vao`,
the draw count `pts`, the aggregate `ed`, and the buffers `v`, `n`, `c` under the
three categories. -/
def Holds (r : ConcreteRenderer) (s : Option ShaderProgram) (vao : VAO) (pts : Nat)
    (ed : List (EntityPtr × List DrawBuffer)) (v n c : VBO) : Prop :=
  r.shader_program_ = s ∧ r.vao_ = vao ∧ r.points_to_draw_ = pts ∧ r.entity_data_ = ed ∧
    find BUFFER_TYPE.VERTEX r.vbos_ = some (some v) ∧
    find BUFFER_TYPE.NORMAL r.vbos_ = some (some n) ∧
    find BUFFER_TYPE.COLOUR r.vbos_ = some (some c)

/-- The buffer object of category `k` after one synchronisation of the aggregate
`ed`: one `allocateMemory` call followed by the uploads of the traversal. -/
def synced (k : BUFFER_TYPE) (ed : List (EntityPtr × List DrawBuffer)) (v : VBO) : VBO :=
  { id := v.id,
    calls := v.calls ++
      VBOCall.allocateMemory (totalBytes k ed % UNSIGNED_RANGE) :: uploadCalls k (traversal ed) 0 }

/-- The driver calls of one synchronisation with the shader `s`, the vertex-array
object `vao` and the buffers `v`, `n`, `c`, in the context `gl`. -/
def syncCalls (gl : GLContext) (s : ShaderProgram) (vao : VAO) (v n c : VBO) : List GLCall :=
  [ GLCall.use s.address,
    GLCall.glBindVertexArray vao.id,
    GLCall.glBindBuffer GL_ARRAY_BUFFER v.id,
    GLCall.glVertexAttribPointer (toGLuint (gl.attribLocation s.address "aPos")) 3
      VERTEX_TYPE.FLOAT false 0 0,
    GLCall.glBindBuffer GL_ARRAY_BUFFER 0,
    GLCall.glBindBuffer GL_ARRAY_BUFFER n.id,
    GLCall.glVertexAttribPointer (toGLuint (gl.attribLocation s.address "aNor")) 3
      VERTEX_TYPE.FLOAT false 0 0,
    GLCall.glBindBuffer GL_VERTEX_ARRAY 0,
    GLCall.glBindBuffer GL_ARRAY_BUFFER c.id,
    GLCall.glVertexAttribPointer (toGLuint (gl.attribLocation s.address "aCol")) 4
      VERTEX_TYPE.FLOAT true 0 0,
    GLCall.glBindBuffer GL_VERTEX_ARRAY 0,
    GLCall.unuse s.address ]

/-- The calls that one `send_gpu_data` makes on the buffer of the category `k`. -/
def issuedCalls (k : BUFFER_TYPE) (r : ConcreteRenderer) (gl : GLContext) :
    Except RendererException (List VBOCall) := do
  let before ← getVBO k r
  let after ← r.send_gpu_data gl
  let vbo ← getVBO k after.1
  pure (newCalls before vbo)

/-- The byte sizes that one `send_gpu_data` passes to `allocateMemory` on the buffer
of the category `k`. -/
def allocatedSizes (k : BUFFER_TYPE) (r : ConcreteRenderer) (gl : GLContext) :
    Except RendererException (List Nat) :=
  (issuedCalls k r gl).map allocations

/-- The byte ranges, as (offset, byte count), that one `send_gpu_data` uploads to
the buffer of the category `k`, in the order of the uploads. -/
def uploadedRanges (k : BUFFER_TYPE) (r : ConcreteRenderer) (gl : GLContext) :
    Except RendererException (List (Nat × Nat)) :=
  (issuedCalls k r gl).map uploads

/-- The draw count after one `send_gpu_data`. -/
def drawCount (r : ConcreteRenderer) (gl : GLContext) : Except RendererException Nat :=
  (r.send_gpu_data gl).map (fun after => after.1.points_to_draw_)

/-- The driver calls recorded after one `send_gpu_data`. -/
def driverCalls (r : ConcreteRenderer) (gl : GLContext) : Except RendererException (List GLCall) :=
  (r.send_gpu_data gl).map (fun after => after.2.calls)

/-- The state after `send_gpu_data` (the state before, should it throw). -/
def syncResult (r : ConcreteRenderer) (gl : GLContext) : ConcreteRenderer × GLContext :=
  match r.send_gpu_data gl with
  | Except.ok after => after
  | Except.error _ => (r, gl)

/-! ## Concrete inputs -/

/-- A shader program at address 7. -/
def exampleShader : ShaderProgram := { address := 7 }

/-- A context with no call made and no error pending, in which every attribute
name resolves to slot 0. -/
def exampleContext : GLContext := { attribLocation := fun _ _ => 0 }

/-- A context in which no attribute name resolves (`glGetAttribLocation` answers -1). -/
def unresolvedContext : GLContext := { attribLocation := fun _ _ => -1 }

/-- A freshly constructed renderer (vertex-array object 1, buffers 1, 2, 3) with
the example shader set. -/
def exampleRenderer : ConcreteRenderer :=
  (ConcreteRenderer.construct { id := 1 } { id := 1 } { id := 2 } { id := 3 }).set_shader
    (some exampleShader)

/-- The bar renderer of `buildBarRenderer` (entity at address 100) with the example
shader set. -/
def exampleBarRenderer : ConcreteRenderer :=
  (RenderBuilder.buildBarRenderer { id := 1 } { id := 1 } { id := 2 } { id := 3 } 100).set_shader
    (some exampleShader)

/-- A draw buffer of 12 vertices (12 positions, 12 normals, 12 colours). -/
def twelveBuffer : DrawBuffer :=
  { vertices := { data := List.replicate 12 ⟨0, 0, 0⟩ },
    normals := { data := List.replicate 12 ⟨0, 0, 1⟩ },
    colours := { data := List.replicate 12 ⟨1, 0, 0, 1⟩ } }

/-- A draw buffer of 357913942 vertices (as many positions, normals and colours):
its positions take 4294967304 bytes, more than an `unsigned` can hold. -/
def hugeBuffer : DrawBuffer :=
  { vertices := { data := List.replicate 357913942 ⟨0, 0, 0⟩ },
    normals := { data := List.replicate 357913942 ⟨0, 0, 1⟩ },
    colours := { data := List.replicate 357913942 ⟨1, 0, 0, 1⟩ } }

/-- The example renderer with the huge buffer registered under the entity at
address 100. -/
def hugeRenderer : ConcreteRenderer := exampleRenderer.add_entity_data 100 hugeBuffer

/-- A freshly constructed renderer with the shader `s` set, after registering
`b1` under the entity `e1` and then `b2` under the entity `e2`. -/
def registerTwo (vao : VAO) (v n c : VBO) (s : ShaderProgram) (e1 : EntityPtr) (b1 : DrawBuffer)
    (e2 : EntityPtr) (b2 : DrawBuffer) : ConcreteRenderer :=
  ((((ConcreteRenderer.construct vao v n c).set_shader (some s)).add_entity_data e1 b1).add_entity_data
    e2 b2)

/-- The 36-vertex bar buffer registered under the entity at address 200, then the
12-vertex buffer under the entity at address 100: the entity registered second has
the smaller key. -/
def reversedRenderer : ConcreteRenderer :=
  registerTwo { id := 1 } { id := 1 } { id := 2 } { id := 3 } exampleShader
    200 RenderBuilder.barBuffer 100 twelveBuffer

/-! # Theorems -/

/-! ## Lemmas on the tables -/

theorem find_modifyFound_same {K V : Type} [DecidableEq K] (k : K) (f : V → V)
    (m : List (K × V)) : find k (modifyFound k f m) = (find k m).map f := by
  induction m with
  | nil => simp [find, modifyFound]
  | cons kv rest ih =>
    obtain ⟨k', v⟩ := kv
    by_cases h : k = k'
    · simp [find, modifyFound, h]
    · simp [find, modifyFound, h, ih]

theorem find_modifyFound_other {K V : Type} [DecidableEq K] (k k' : K) (f : V → V)
    (m : List (K × V)) (hk : k' ≠ k) : find k' (modifyFound k f m) = find k' m := by
  induction m with
  | nil => simp [find, modifyFound]
  | cons kv rest ih =>
    obtain ⟨k'', v⟩ := kv
    by_cases h : k = k''
    · subst h
      simp [find, modifyFound, hk]
    · by_cases h2 : k' = k''
      · simp [find, modifyFound, h, h2]
      · simp [find, modifyFound, h, h2, ih]

theorem find_entityInsert_same (k : EntityPtr) (v : List DrawBuffer)
    (m : List (EntityPtr × List DrawBuffer)) (hm : find k m = none) :
    find k (entityInsert k v m) = some v := by
  induction m with
  | nil => simp [find, entityInsert]
  | cons kv rest ih =>
    obtain ⟨k', v'⟩ := kv
    by_cases h : k = k'
    · simp [find, h] at hm
    · simp only [find, h, if_false] at hm
      by_cases h2 : k < k'
      · simp [find, entityInsert, h2]
      · simp [find, entityInsert, h2, h, ih hm]

theorem find_entityInsert_other (k k' : EntityPtr) (v : List DrawBuffer)
    (m : List (EntityPtr × List DrawBuffer)) (hk : k' ≠ k) :
    find k' (entityInsert k v m) = find k' m := by
  induction m with
  | nil => simp [find, entityInsert, hk]
  | cons kv rest ih =>
    obtain ⟨k'', v'⟩ := kv
    by_cases h2 : k < k''
    · simp [find, entityInsert, h2, hk]
    · by_cases h : k = k''
      · simp [find, entityInsert, h2, h]
      · by_cases h3 : k' = k''
        · simp [find, entityInsert, h2, h, h3]
        · simp [find, entityInsert, h2, h, h3, ih]

/-! ## Lemmas on the traversal and the size sums -/

theorem foldl_traversal {α : Type} (f : α → DrawBuffer → α)
    (ed : List (EntityPtr × List DrawBuffer)) (a : α) :
    ed.foldl (fun a kvPair => kvPair.2.foldl f a) a = (traversal ed).foldl f a := by
  induction ed generalizing a with
  | nil => rfl
  | cons kv rest ih => simp [traversal, List.foldl_append, ih]

theorem foldl_unsignedAdd (g : DrawBuffer → Nat) (bs : List DrawBuffer) (t : Nat)
    (ht : t < UNSIGNED_RANGE) :
    bs.foldl (fun total b => unsignedAdd total (g b)) t = (t + (bs.map g).sum) % UNSIGNED_RANGE := by
  induction bs generalizing t with
  | nil => simp [Nat.mod_eq_of_lt ht]
  | cons b rest ih =>
    have hlt : unsignedAdd t (g b) < UNSIGNED_RANGE := Nat.mod_lt _ (by decide)
    simp only [List.foldl_cons, List.map_cons, List.sum_cons]
    rw [ih _ hlt]
    simp only [unsignedAdd]
    rw [Nat.mod_add_mod, Nat.add_assoc]

theorem get_size_eq (k : BUFFER_TYPE) (ed : List (EntityPtr × List DrawBuffer)) :
    ed.foldl (fun total kvPair =>
      kvPair.2.foldl (fun total dataPtr => unsignedAdd total (gpuSize k dataPtr)) total) 0
      = totalBytes k ed % UNSIGNED_RANGE := by
  rw [foldl_traversal (fun total dataPtr => unsignedAdd total (gpuSize k dataPtr)),
    foldl_unsignedAdd _ _ 0 (by decide)]
  simp [totalBytes]

theorem get_vertex_size_eq (r : ConcreteRenderer) :
    r._get_vertex_size = totalBytes BUFFER_TYPE.VERTEX r.entity_data_ % UNSIGNED_RANGE :=
  get_size_eq BUFFER_TYPE.VERTEX r.entity_data_

theorem get_normal_size_eq (r : ConcreteRenderer) :
    r._get_normal_size = totalBytes BUFFER_TYPE.NORMAL r.entity_data_ % UNSIGNED_RANGE :=
  get_size_eq BUFFER_TYPE.NORMAL r.entity_data_

theorem get_colour_size_eq (r : ConcreteRenderer) :
    r._get_colour_size = totalBytes BUFFER_TYPE.COLOUR r.entity_data_ % UNSIGNED_RANGE :=
  get_size_eq BUFFER_TYPE.COLOUR r.entity_data_

/-! ## Lemmas on the loop of `populateBuffers` -/

theorem foldl_populateStep_vertexVBO (bs : List DrawBuffer) (st : PopulateState) :
    (bs.foldl populateStep st).vertexVBO =
      { id := st.vertexVBO.id,
        calls := st.vertexVBO.calls ++ uploadCalls BUFFER_TYPE.VERTEX bs st.vertexOffset } := by
  induction bs generalizing st with
  | nil => simp [uploadCalls]
  | cons b rest ih =>
    rw [List.foldl_cons, ih]
    simp [populateStep, VBO.addData3, uploadCalls, gpuSize]

theorem foldl_populateStep_normal_vbo (bs : List DrawBuffer) (st : PopulateState) :
    (bs.foldl populateStep st).normal_vbo =
      { id := st.normal_vbo.id,
        calls := st.normal_vbo.calls ++ uploadCalls BUFFER_TYPE.NORMAL bs st.normalOffset } := by
  induction bs generalizing st with
  | nil => simp [uploadCalls]
  | cons b rest ih =>
    rw [List.foldl_cons, ih]
    simp [populateStep, VBO.addData3, uploadCalls, gpuSize]

theorem foldl_populateStep_colour_vbo (bs : List DrawBuffer) (st : PopulateState) :
    (bs.foldl populateStep st).colour_vbo =
      { id := st.colour_vbo.id,
        calls := st.colour_vbo.calls ++ uploadCalls BUFFER_TYPE.COLOUR bs st.colourOffset } := by
  induction bs generalizing st with
  | nil => simp [uploadCalls]
  | cons b rest ih =>
    rw [List.foldl_cons, ih]
    simp [populateStep, VBO.addData4, uploadCalls, gpuSize]

theorem foldl_populateStep_points (bs : List DrawBuffer) (st : PopulateState) :
    (bs.foldl populateStep st).points_to_draw_ = st.points_to_draw_ + (bs.map vertexCount).sum := by
  induction bs generalizing st with
  | nil => simp
  | cons b rest ih =>
    rw [List.foldl_cons, ih]
    simp [populateStep, vertexCount, Nat.add_assoc]

/-! ## The member functions on a renderer that holds its three buffers -/

theorem Holds.storeVERTEX {r : ConcreteRenderer} {s vao pts ed v n c} (h : Holds r s vao pts ed v n c)
    (v' : VBO) : Holds (r.storeVBO BUFFER_TYPE.VERTEX v') s vao pts ed v' n c := by
  obtain ⟨h1, h2, h3, h4, h5, h6, h7⟩ := h
  refine ⟨h1, h2, h3, h4, ?_, ?_, ?_⟩
  · simp [storeVBO, find_modifyFound_same, h5]
  · simp [storeVBO, find_modifyFound_other, h6]
  · simp [storeVBO, find_modifyFound_other, h7]

theorem Holds.storeNORMAL {r : ConcreteRenderer} {s vao pts ed v n c} (h : Holds r s vao pts ed v n c)
    (n' : VBO) : Holds (r.storeVBO BUFFER_TYPE.NORMAL n') s vao pts ed v n' c := by
  obtain ⟨h1, h2, h3, h4, h5, h6, h7⟩ := h
  refine ⟨h1, h2, h3, h4, ?_, ?_, ?_⟩
  · simp [storeVBO, find_modifyFound_other, h5]
  · simp [storeVBO, find_modifyFound_same, h6]
  · simp [storeVBO, find_modifyFound_other, h7]

theorem Holds.storeCOLOUR {r : ConcreteRenderer} {s vao pts ed v n c} (h : Holds r s vao pts ed v n c)
    (c' : VBO) : Holds (r.storeVBO BUFFER_TYPE.COLOUR c') s vao pts ed v n c' := by
  obtain ⟨h1, h2, h3, h4, h5, h6, h7⟩ := h
  refine ⟨h1, h2, h3, h4, ?_, ?_, ?_⟩
  · simp [storeVBO, find_modifyFound_other, h5]
  · simp [storeVBO, find_modifyFound_other, h6]
  · simp [storeVBO, find_modifyFound_same, h7]

theorem Holds.get_vertex {r : ConcreteRenderer} {s vao pts ed v n c} (h : Holds r s vao pts ed v n c) :
    r._get_vertex_vbo = Except.ok v := by
  simp [_get_vertex_vbo, h.2.2.2.2.1]

theorem Holds.get_normal {r : ConcreteRenderer} {s vao pts ed v n c} (h : Holds r s vao pts ed v n c) :
    r._get_normal_vbo = Except.ok n := by
  simp [_get_normal_vbo, h.2.2.2.2.2.1]

theorem Holds.get_colour {r : ConcreteRenderer} {s vao pts ed v n c} (h : Holds r s vao pts ed v n c) :
    r._get_colour_vbo = Except.ok c := by
  simp [_get_colour_vbo, h.2.2.2.2.2.2]

theorem storeVBO_get_normal_size (r : ConcreteRenderer) (k : BUFFER_TYPE) (x : VBO) :
    (r.storeVBO k x)._get_normal_size = r._get_normal_size := rfl

theorem storeVBO_get_colour_size (r : ConcreteRenderer) (k : BUFFER_TYPE) (x : VBO) :
    (r.storeVBO k x)._get_colour_size = r._get_colour_size := rfl

theorem Holds.allocateGPUMemory {r : ConcreteRenderer} {s vao pts ed v n c}
    (h : Holds r s vao pts ed v n c) :
    ∃ r1, r.allocateGPUMemory = Except.ok r1 ∧
      Holds r1 s vao pts ed
        (v.allocateMemory (totalBytes BUFFER_TYPE.VERTEX ed % UNSIGNED_RANGE))
        (n.allocateMemory (totalBytes BUFFER_TYPE.NORMAL ed % UNSIGNED_RANGE))
        (c.allocateMemory (totalBytes BUFFER_TYPE.COLOUR ed % UNSIGNED_RANGE)) := by
  have e4 : r.entity_data_ = ed := h.2.2.2.1
  have s1 : r._get_vertex_size = totalBytes BUFFER_TYPE.VERTEX ed % UNSIGNED_RANGE := by
    rw [get_vertex_size_eq, e4]
  have s2 : r._get_normal_size = totalBytes BUFFER_TYPE.NORMAL ed % UNSIGNED_RANGE := by
    rw [get_normal_size_eq, e4]
  have s3 : r._get_colour_size = totalBytes BUFFER_TYPE.COLOUR ed % UNSIGNED_RANGE := by
    rw [get_colour_size_eq, e4]
  have h1 := h.storeVERTEX (v.allocateMemory (totalBytes BUFFER_TYPE.VERTEX ed % UNSIGNED_RANGE))
  have h2 := h1.storeNORMAL (n.allocateMemory (totalBytes BUFFER_TYPE.NORMAL ed % UNSIGNED_RANGE))
  have h3 := h2.storeCOLOUR (c.allocateMemory (totalBytes BUFFER_TYPE.COLOUR ed % UNSIGNED_RANGE))
  refine ⟨_, ?_, h3⟩
  simp only [ConcreteRenderer.allocateGPUMemory, h.get_vertex, bind, Except.bind, pure,
    Except.pure, s1, h1.get_normal, storeVBO_get_normal_size, s2, h2.get_colour,
    storeVBO_get_colour_size, s3]

theorem Holds.populateBuffers {r : ConcreteRenderer} {s vao pts ed v n c}
    (h : Holds r s vao pts ed v n c) :
    ∃ r1, r.populateBuffers = Except.ok r1 ∧
      Holds r1 s vao (totalVertexCount ed) ed
        { id := v.id, calls := v.calls ++ uploadCalls BUFFER_TYPE.VERTEX (traversal ed) 0 }
        { id := n.id, calls := n.calls ++ uploadCalls BUFFER_TYPE.NORMAL (traversal ed) 0 }
        { id := c.id, calls := c.calls ++ uploadCalls BUFFER_TYPE.COLOUR (traversal ed) 0 } := by
  obtain ⟨e1, e2, e3, e4, e5, e6, e7⟩ := h
  have h0 : Holds { r with points_to_draw_ := totalVertexCount ed } s vao (totalVertexCount ed) ed
      v n c := ⟨e1, e2, rfl, e4, e5, e6, e7⟩
  have h1 := h0.storeVERTEX
    { id := v.id, calls := v.calls ++ uploadCalls BUFFER_TYPE.VERTEX (traversal ed) 0 }
  have h2 := h1.storeNORMAL
    { id := n.id, calls := n.calls ++ uploadCalls BUFFER_TYPE.NORMAL (traversal ed) 0 }
  have h3 := h2.storeCOLOUR
    { id := c.id, calls := c.calls ++ uploadCalls BUFFER_TYPE.COLOUR (traversal ed) 0 }
  refine ⟨_, ?_, h3⟩
  simp only [ConcreteRenderer.populateBuffers, _get_vertex_vbo, _get_normal_vbo, _get_colour_vbo,
    e5, e6, e7, bind, Except.bind, pure, Except.pure, populateLoop, e4, foldl_traversal,
    foldl_populateStep_vertexVBO, foldl_populateStep_normal_vbo, foldl_populateStep_colour_vbo,
    foldl_populateStep_points, totalVertexCount, Nat.zero_add]

/-! ## The error poller -/

theorem getErrorLoop_fst (q : List Nat) (retVal : List String) :
    (getErrorLoop q retVal).1 = retVal := by
  induction q generalizing retVal with
  | nil => rfl
  | cons code rest ih =>
    by_cases h : code = GL_NO_ERROR
    · simp [getErrorLoop, h]
    · simp [getErrorLoop, h, ih, errorSwitch, GL_INVALID_ENUM, GL_INVALID_VALUE,
        GL_INVALID_OPERATION, GL_STACK_OVERFLOW, GL_STACK_UNDERFLOW, GL_OUT_OF_MEMORY,
        GL_INVALID_FRAMEBUFFER_OPERATION, GL_TABLE_TOO_LARGE]

theorem getError_fst (gl : GLContext) : (getError gl).1 = [] := by
  simp [getError, getErrorLoop_fst]

theorem getError_calls (gl : GLContext) : (getError gl).2.calls = gl.calls := by
  unfold getError glGetError
  cases gl.errors <;> rfl

theorem getError_attribLocation (gl : GLContext) :
    (getError gl).2.attribLocation = gl.attribLocation := by
  unfold getError glGetError
  cases gl.errors <;> rfl

/-! ## Attribute set-up and synchronisation -/

theorem Holds.shader {r : ConcreteRenderer} {s : ShaderProgram} {vao pts ed v n c}
    (h : Holds r (some s) vao pts ed v n c) : r.shader = Except.ok s := by
  simp [ConcreteRenderer.shader, get_shader, h.1]

theorem Holds.setUpVertexBufferAttributes {r : ConcreteRenderer} {s : ShaderProgram}
    {vao pts ed v n c} (h : Holds r (some s) vao pts ed v n c) :
    ∃ r1, Holds r1 (some s) (vao.addBufferConfigs v float3Attribute) pts ed v n c ∧
      ∀ gl : GLContext, r.setUpVertexBufferAttributes gl = Except.ok (r1,
        (((gl.call (GLCall.glBindBuffer GL_ARRAY_BUFFER v.id)).call
          (GLCall.glVertexAttribPointer (toGLuint (gl.attribLocation s.address "aPos")) 3
            VERTEX_TYPE.FLOAT false 0 0)).call (GLCall.glBindBuffer GL_ARRAY_BUFFER 0))) := by
  refine ⟨{ r with vao_ := r.vao_.addBufferConfigs v float3Attribute }, ?_, ?_⟩
  · obtain ⟨e1, e2, e3, e4, e5, e6, e7⟩ := h
    exact ⟨e1, by simp [e2], e3, e4, e5, e6, e7⟩
  · intro gl
    simp only [ConcreteRenderer.setUpVertexBufferAttributes, h.get_vertex, h.shader, bind,
      Except.bind, pure, Except.pure]
    rfl

theorem Holds.setUpNormalBufferAttributes {r : ConcreteRenderer} {s : ShaderProgram}
    {vao pts ed v n c} (h : Holds r (some s) vao pts ed v n c) :
    ∃ r1, Holds r1 (some s) (vao.addBufferConfigs n float3Attribute) pts ed v n c ∧
      ∀ gl : GLContext, r.setUpNormalBufferAttributes gl = Except.ok (r1,
        (((gl.call (GLCall.glBindBuffer GL_ARRAY_BUFFER n.id)).call
          (GLCall.glVertexAttribPointer (toGLuint (gl.attribLocation s.address "aNor")) 3
            VERTEX_TYPE.FLOAT false 0 0)).call (GLCall.glBindBuffer GL_VERTEX_ARRAY 0))) := by
  refine ⟨{ r with vao_ := r.vao_.addBufferConfigs n float3Attribute }, ?_, ?_⟩
  · obtain ⟨e1, e2, e3, e4, e5, e6, e7⟩ := h
    exact ⟨e1, by simp [e2], e3, e4, e5, e6, e7⟩
  · intro gl
    simp only [ConcreteRenderer.setUpNormalBufferAttributes, h.get_normal, h.shader, bind,
      Except.bind, pure, Except.pure]
    rfl

theorem Holds.setUpColourBufferAttributes {r : ConcreteRenderer} {s : ShaderProgram}
    {vao pts ed v n c} (h : Holds r (some s) vao pts ed v n c) :
    ∃ r1, Holds r1 (some s) (vao.addBufferConfigs c float4NormalisedAttribute) pts ed v n c ∧
      ∀ gl : GLContext, r.setUpColourBufferAttributes gl = Except.ok (r1,
        (((gl.call (GLCall.glBindBuffer GL_ARRAY_BUFFER c.id)).call
          (GLCall.glVertexAttribPointer (toGLuint (gl.attribLocation s.address "aCol")) 4
            VERTEX_TYPE.FLOAT true 0 0)).call (GLCall.glBindBuffer GL_VERTEX_ARRAY 0))) := by
  refine ⟨{ r with vao_ := r.vao_.addBufferConfigs c float4NormalisedAttribute }, ?_, ?_⟩
  · obtain ⟨e1, e2, e3, e4, e5, e6, e7⟩ := h
    exact ⟨e1, by simp [e2], e3, e4, e5, e6, e7⟩
  · intro gl
    simp only [ConcreteRenderer.setUpColourBufferAttributes, h.get_colour, h.shader, bind,
      Except.bind, pure, Except.pure]
    rfl

theorem Holds.send_gpu_data {r : ConcreteRenderer} {s : ShaderProgram} {vao pts ed v n c}
    (h : Holds r (some s) vao pts ed v n c) (gl : GLContext) :
    ∃ r1 gl1, r.send_gpu_data gl = Except.ok (r1, gl1) ∧
      Holds r1 (some s)
        { id := vao.id,
          configs := vao.configs ++
            [(synced BUFFER_TYPE.VERTEX ed v, float3Attribute),
             (synced BUFFER_TYPE.NORMAL ed n, float3Attribute),
             (synced BUFFER_TYPE.COLOUR ed c, float4NormalisedAttribute)] }
        (totalVertexCount ed) ed
        (synced BUFFER_TYPE.VERTEX ed v) (synced BUFFER_TYPE.NORMAL ed n)
        (synced BUFFER_TYPE.COLOUR ed c) ∧
      gl1.calls = gl.calls ++ syncCalls gl s vao v n c ∧
      gl1.attribLocation = gl.attribLocation := by
  obtain ⟨e1, e2, e3, e4, e5, e6, e7⟩ := h
  have h0 : Holds { r with points_to_draw_ := 0 } (some s) vao 0 ed v n c :=
    ⟨e1, e2, rfl, e4, e5, e6, e7⟩
  obtain ⟨r1, a1, h1⟩ := h0.allocateGPUMemory
  obtain ⟨r2, a2, h2⟩ := h1.populateBuffers
  obtain ⟨r3, h3, a3⟩ := h2.setUpVertexBufferAttributes
  obtain ⟨r4, h4, a4⟩ := h3.setUpNormalBufferAttributes
  obtain ⟨r5, h5, a5⟩ := h4.setUpColourBufferAttributes
  simp only [ConcreteRenderer.send_gpu_data, h0.shader, bind, Except.bind, pure, Except.pure,
    a1, a2, a3, a4, a5, h5.shader]
  refine ⟨_, _, rfl, ?_, ?_, ?_⟩
  · simpa [synced, VBO.allocateMemory, VAO.addBufferConfigs] using h5
  · simp [getError_calls, GLContext.call, syncCalls, VBO.allocateMemory, ShaderProgram.get_address,
      VAO.getId, e2]
  · simp [getError_attribLocation, GLContext.call]

theorem send_gpu_data_ok_holds {r : ConcreteRenderer} {gl : GLContext}
    {x : ConcreteRenderer × GLContext} (h : r.send_gpu_data gl = Except.ok x) :
    ∃ s v n c, Holds r (some s) r.vao_ r.points_to_draw_ r.entity_data_ v n c := by
  cases hs : r.shader_program_ with
  | none =>
    simp [ConcreteRenderer.send_gpu_data, ConcreteRenderer.shader, get_shader, hs, bind,
      Except.bind] at h
  | some s =>
    rcases hv : find BUFFER_TYPE.VERTEX r.vbos_ with _ | _ | v
    · simp [ConcreteRenderer.send_gpu_data, ConcreteRenderer.shader, get_shader, hs, bind,
        Except.bind, ConcreteRenderer.allocateGPUMemory, _get_vertex_vbo, hv] at h
    · simp [ConcreteRenderer.send_gpu_data, ConcreteRenderer.shader, get_shader, hs, bind,
        Except.bind, ConcreteRenderer.allocateGPUMemory, _get_vertex_vbo, hv] at h
    · rcases hn : find BUFFER_TYPE.NORMAL r.vbos_ with _ | _ | n
      · simp [ConcreteRenderer.send_gpu_data, ConcreteRenderer.shader, get_shader, hs, bind,
          Except.bind, ConcreteRenderer.allocateGPUMemory, _get_vertex_vbo, hv, _get_normal_vbo,
          storeVBO, find_modifyFound_other, hn] at h
      · simp [ConcreteRenderer.send_gpu_data, ConcreteRenderer.shader, get_shader, hs, bind,
          Except.bind, ConcreteRenderer.allocateGPUMemory, _get_vertex_vbo, hv, _get_normal_vbo,
          storeVBO, find_modifyFound_other, hn] at h
      · rcases hc : find BUFFER_TYPE.COLOUR r.vbos_ with _ | _ | c
        · simp [ConcreteRenderer.send_gpu_data, ConcreteRenderer.shader, get_shader, hs, bind,
            Except.bind, ConcreteRenderer.allocateGPUMemory, _get_vertex_vbo, hv, _get_normal_vbo,
            _get_colour_vbo, storeVBO, find_modifyFound_other, hn, hc] at h
        · simp [ConcreteRenderer.send_gpu_data, ConcreteRenderer.shader, get_shader, hs, bind,
            Except.bind, ConcreteRenderer.allocateGPUMemory, _get_vertex_vbo, hv, _get_normal_vbo,
            _get_colour_vbo, storeVBO, find_modifyFound_other, hn, hc] at h
        · exact ⟨s, v, n, c, hs, rfl, rfl, rfl, hv, hn, hc⟩

/-- A synchronisation that completes: the state before held a shader and three
buffers, the state after holds the synchronised buffers. -/
theorem send_gpu_data_ok {r r1 : ConcreteRenderer} {gl gl1 : GLContext}
    (h : r.send_gpu_data gl = Except.ok (r1, gl1)) :
    ∃ s v n c, Holds r (some s) r.vao_ r.points_to_draw_ r.entity_data_ v n c ∧
      Holds r1 (some s)
        { id := r.vao_.id,
          configs := r.vao_.configs ++
            [(synced BUFFER_TYPE.VERTEX r.entity_data_ v, float3Attribute),
             (synced BUFFER_TYPE.NORMAL r.entity_data_ n, float3Attribute),
             (synced BUFFER_TYPE.COLOUR r.entity_data_ c, float4NormalisedAttribute)] }
        (totalVertexCount r.entity_data_) r.entity_data_
        (synced BUFFER_TYPE.VERTEX r.entity_data_ v) (synced BUFFER_TYPE.NORMAL r.entity_data_ n)
        (synced BUFFER_TYPE.COLOUR r.entity_data_ c) ∧
      gl1.calls = gl.calls ++ syncCalls gl s r.vao_ v n c ∧
      gl1.attribLocation = gl.attribLocation := by
  obtain ⟨s, v, n, c, hh⟩ := send_gpu_data_ok_holds h
  obtain ⟨r2, gl2, e, h2, hc, ha⟩ := hh.send_gpu_data gl
  rw [h] at e
  injection e with e
  injection e with e1 e2
  subst e1 e2
  exact ⟨s, v, n, c, hh, h2, hc, ha⟩

theorem Holds.getVBO {r : ConcreteRenderer} {s vao pts ed v n c} (h : Holds r s vao pts ed v n c)
    (k : BUFFER_TYPE) :
    getVBO k r = Except.ok (match k with
      | BUFFER_TYPE.VERTEX => v | BUFFER_TYPE.NORMAL => n | BUFFER_TYPE.COLOUR => c) := by
  cases k
  · exact h.get_vertex
  · exact h.get_normal
  · exact h.get_colour

/-! ## Records of calls -/

theorem allocations_uploadCalls (k : BUFFER_TYPE) (bs : List DrawBuffer) (offset : Nat) :
    allocations (uploadCalls k bs offset) = [] := by
  induction bs generalizing offset with
  | nil => rfl
  | cons b rest ih => cases k <;> simp [uploadCalls, allocations, ih]

theorem uploads_uploadCalls (k : BUFFER_TYPE) (bs : List DrawBuffer) (offset : Nat)
    (hfit : offset + (bs.map (gpuSize k)).sum < UNSIGNED_RANGE) :
    uploads (uploadCalls k bs offset) = packed offset (bs.map (gpuSize k)) := by
  induction bs generalizing offset with
  | nil => rfl
  | cons b rest ih =>
    simp only [List.map_cons, List.sum_cons] at hfit
    have e : unsignedAdd offset (gpuSize k b) = offset + gpuSize k b :=
      Nat.mod_eq_of_lt (by omega)
    have ih2 := ih (offset + gpuSize k b) (by omega)
    cases k <;>
      simp only [uploadCalls, e, uploads, packed, List.map_cons, ih2] <;>
      simp [gpuSize, DrawData3.getGPUSize, ColourData.getGPUSize, DrawData3.getData,
        ColourData.getData]

theorem newCalls_synced (k : BUFFER_TYPE) (ed : List (EntityPtr × List DrawBuffer)) (v : VBO) :
    newCalls v (synced k ed v) =
      VBOCall.allocateMemory (totalBytes k ed % UNSIGNED_RANGE) :: uploadCalls k (traversal ed) 0 := by
  simp [newCalls, synced]

theorem issuedCalls_of_ok {r : ConcreteRenderer} {gl : GLContext}
    {x : ConcreteRenderer × GLContext} (h : r.send_gpu_data gl = Except.ok x) (k : BUFFER_TYPE) :
    issuedCalls k r gl = Except.ok (VBOCall.allocateMemory
      (totalBytes k r.entity_data_ % UNSIGNED_RANGE) :: uploadCalls k (traversal r.entity_data_) 0) := by
  obtain ⟨r1, gl1⟩ := x
  obtain ⟨s, v, n, c, h0, h1, -, -⟩ := send_gpu_data_ok h
  simp only [issuedCalls, h0.getVBO k, h, h1.getVBO k, bind, Except.bind, pure, Except.pure]
  cases k <;> simp [newCalls_synced]

theorem allocatedSizes_of_ok {r : ConcreteRenderer} {gl : GLContext}
    {x : ConcreteRenderer × GLContext} (h : r.send_gpu_data gl = Except.ok x) (k : BUFFER_TYPE) :
    allocatedSizes k r gl = Except.ok [totalBytes k r.entity_data_ % UNSIGNED_RANGE] := by
  simp [allocatedSizes, issuedCalls_of_ok h k, Except.map, allocations, allocations_uploadCalls]

theorem uploadedRanges_of_ok {r : ConcreteRenderer} {gl : GLContext}
    {x : ConcreteRenderer × GLContext} (h : r.send_gpu_data gl = Except.ok x) (k : BUFFER_TYPE) :
    uploadedRanges k r gl = Except.ok (uploads (uploadCalls k (traversal r.entity_data_) 0)) := by
  simp [uploadedRanges, issuedCalls_of_ok h k, Except.map, uploads]

theorem syncResult_of_ok {r : ConcreteRenderer} {gl : GLContext}
    {x : ConcreteRenderer × GLContext} (h : r.send_gpu_data gl = Except.ok x) :
    syncResult r gl = x := by
  simp [syncResult, h]

/-! ## The packing of the spec -/

theorem packed_bounds (start : Nat) (sizes : List Nat) (i o s : Nat)
    (h : (packed start sizes)[i]? = some (o, s)) : start ≤ o ∧ o + s ≤ start + sizes.sum := by
  induction sizes generalizing start i with
  | nil => simp [packed] at h
  | cons size rest ih =>
    cases i with
    | zero =>
      simp only [packed, List.getElem?_cons_zero, Option.some.injEq, Prod.mk.injEq] at h
      obtain ⟨rfl, rfl⟩ := h
      simp
    | succ i =>
      simp only [packed, List.getElem?_cons_succ] at h
      have := ih (start + size) i h
      simp only [List.sum_cons]
      omega

theorem packed_adjacent (start : Nat) (sizes : List Nat) (i o s o2 s2 : Nat)
    (h : (packed start sizes)[i]? = some (o, s))
    (h2 : (packed start sizes)[i + 1]? = some (o2, s2)) : o2 = o + s := by
  induction sizes generalizing start i with
  | nil => simp [packed] at h
  | cons size rest ih =>
    cases i with
    | zero =>
      simp only [packed, List.getElem?_cons_zero, Option.some.injEq, Prod.mk.injEq] at h
      obtain ⟨rfl, rfl⟩ := h
      simp only [packed, Nat.zero_add, List.getElem?_cons_succ] at h2
      cases rest with
      | nil => simp [packed] at h2
      | cons size2 rest2 =>
        simp only [packed, List.getElem?_cons_zero, Option.some.injEq, Prod.mk.injEq] at h2
        omega
    | succ i =>
      simp only [packed, List.getElem?_cons_succ] at h h2
      exact ih (start + size) i h h2

theorem packed_disjoint_lt (start : Nat) (sizes : List Nat) (i j oi si oj sj : Nat) (hij : i < j)
    (hi : (packed start sizes)[i]? = some (oi, si))
    (hj : (packed start sizes)[j]? = some (oj, sj)) : oi + si ≤ oj := by
  induction sizes generalizing start i j with
  | nil => simp [packed] at hi
  | cons size rest ih =>
    cases j with
    | zero => omega
    | succ j =>
      simp only [packed, List.getElem?_cons_succ] at hj
      cases i with
      | zero =>
        simp only [packed, List.getElem?_cons_zero, Option.some.injEq, Prod.mk.injEq] at hi
        obtain ⟨rfl, rfl⟩ := hi
        exact (packed_bounds _ _ _ _ _ hj).1
      | succ i =>
        simp only [packed, List.getElem?_cons_succ] at hi
        exact ih (start + size) i j (by omega) hi hj

theorem packed_cover (start : Nat) (sizes : List Nat) (b : Nat) :
    (start ≤ b ∧ b < start + sizes.sum) ↔
      ∃ i o s : Nat, (packed start sizes)[i]? = some (o, s) ∧ o ≤ b ∧ b < o + s := by
  induction sizes generalizing start with
  | nil =>
    simp only [packed, List.sum_nil, Nat.add_zero, List.getElem?_nil]
    constructor
    · intro h; omega
    · rintro ⟨i, o, s, hi, -, -⟩; cases hi
  | cons size rest ih =>
    constructor
    · rintro ⟨h1, h2⟩
      simp only [List.sum_cons] at h2
      by_cases hb : b < start + size
      · exact ⟨0, start, size, by simp [packed], h1, hb⟩
      · obtain ⟨i, o, s, hi, ho, hs⟩ := (ih (start + size)).1 ⟨by omega, by omega⟩
        exact ⟨i + 1, o, s, by simpa [packed] using hi, ho, hs⟩
    · rintro ⟨i, o, s, hi, ho, hs⟩
      have := packed_bounds _ _ _ _ _ hi
      omega

/-! ## Construction and registration -/

theorem construct_holds (vao : VAO) (v n c : VBO) :
    Holds (ConcreteRenderer.construct vao v n c) none vao 0 [] v n c := by
  refine ⟨rfl, rfl, rfl, rfl, ?_, ?_, ?_⟩ <;> simp [ConcreteRenderer.construct, vbosInsert, find]

theorem Holds.set_shader {r : ConcreteRenderer} {s vao pts ed v n c}
    (h : Holds r s vao pts ed v n c) (shader_ptr : Option ShaderProgram) :
    Holds (r.set_shader shader_ptr) shader_ptr vao pts ed v n c := by
  obtain ⟨-, e2, e3, e4, e5, e6, e7⟩ := h
  exact ⟨rfl, e2, e3, e4, e5, e6, e7⟩

theorem add_entity_data_entity_data (r : ConcreteRenderer) (e : EntityPtr) (b : DrawBuffer) :
    (r.add_entity_data e b).entity_data_ =
      match find e r.entity_data_ with
      | some _ => modifyFound e (fun second => second ++ [b]) r.entity_data_
      | none => entityInsert e [b] r.entity_data_ := by
  unfold ConcreteRenderer.add_entity_data
  cases find e r.entity_data_ <;> rfl

theorem Holds.add_entity_data {r : ConcreteRenderer} {s vao pts ed v n c}
    (h : Holds r s vao pts ed v n c) (e : EntityPtr) (b : DrawBuffer) :
    Holds (r.add_entity_data e b) s vao pts (r.add_entity_data e b).entity_data_ v n c := by
  obtain ⟨e1, e2, e3, e4, e5, e6, e7⟩ := h
  unfold ConcreteRenderer.add_entity_data
  cases find e r.entity_data_ <;> exact ⟨e1, e2, e3, rfl, e5, e6, e7⟩

theorem totalBytes_eq_specCapacity (k : BUFFER_TYPE) (ed : List (EntityPtr × List DrawBuffer))
    (hinv : ∀ b ∈ traversal ed, vertexCountInvariant b) : totalBytes k ed = specCapacity k ed := by
  unfold totalBytes specCapacity
  congr 1
  apply List.map_congr_left
  intro b hb
  obtain ⟨h1, h2⟩ := hinv b hb
  cases k
  · rfl
  · simp only [gpuSize, DrawData3.getGPUSize, elementSize]
    rw [← h1]; rfl
  · simp only [gpuSize, ColourData.getGPUSize, elementSize]
    rw [← h2]; rfl

theorem traversal_modifyFound (e : EntityPtr) (b : DrawBuffer)
    (m : List (EntityPtr × List DrawBuffer)) (L : List DrawBuffer) (h : find e m = some L) :
    (traversal (modifyFound e (fun second => second ++ [b]) m)).Perm (b :: traversal m) := by
  induction m with
  | nil => simp [find] at h
  | cons kv rest ih =>
    obtain ⟨k, v⟩ := kv
    by_cases hk : e = k
    · simp only [modifyFound, hk, if_true, traversal, List.append_assoc]
      simp
    · simp only [find, hk, if_false] at h
      simp only [modifyFound, hk, if_false, traversal]
      exact ((ih h).append_left v).trans List.perm_middle

theorem traversal_entityInsert (e : EntityPtr) (b : DrawBuffer)
    (m : List (EntityPtr × List DrawBuffer)) (h : find e m = none) :
    (traversal (entityInsert e [b] m)).Perm (b :: traversal m) := by
  induction m with
  | nil => simp [entityInsert, traversal]
  | cons kv rest ih =>
    obtain ⟨k, v⟩ := kv
    by_cases hk : e = k
    · simp [find, hk] at h
    · simp only [find, hk, if_false] at h
      by_cases hlt : e < k
      · simp [entityInsert, hlt, traversal]
      · simp only [entityInsert, hlt, hk, if_false, traversal]
        exact ((ih h).append_left v).trans List.perm_middle

/-! ## Facts about the concrete inputs -/

theorem exampleRenderer_holds :
    Holds exampleRenderer (some exampleShader) { id := 1 } 0 [] { id := 1 } { id := 2 } { id := 3 } :=
  (construct_holds _ _ _ _).set_shader _

theorem exampleBarRenderer_send :
    exampleBarRenderer.send_gpu_data exampleContext =
      Except.ok (syncResult exampleBarRenderer exampleContext) := by
  have h : Holds exampleBarRenderer (some exampleShader) { id := 1 } 0
      exampleBarRenderer.entity_data_ { id := 1 } { id := 2 } { id := 3 } :=
    ((construct_holds _ _ _ _).add_entity_data 100 RenderBuilder.barBuffer).set_shader _
  obtain ⟨r1, gl1, e, -⟩ := h.send_gpu_data exampleContext
  rw [syncResult_of_ok e, e]

theorem exampleBarRenderer_entity_data :
    exampleBarRenderer.entity_data_ = [(100, [RenderBuilder.barBuffer])] := rfl

theorem hugeBuffer_vertices_length : hugeBuffer.get_vertices.getData.length = 357913942 :=
  List.length_replicate _ _

theorem hugeBuffer_normals_length : hugeBuffer.get_normals.getData.length = 357913942 :=
  List.length_replicate _ _

theorem hugeBuffer_colours_length : hugeBuffer.get_colours.getData.length = 357913942 :=
  List.length_replicate _ _

theorem hugeBuffer_invariant : vertexCountInvariant hugeBuffer :=
  ⟨hugeBuffer_normals_length.trans hugeBuffer_vertices_length.symm,
    hugeBuffer_colours_length.trans hugeBuffer_vertices_length.symm⟩

theorem hugeRenderer_holds :
    Holds hugeRenderer (some exampleShader) { id := 1 } 0 [(100, [hugeBuffer])]
      { id := 1 } { id := 2 } { id := 3 } :=
  exampleRenderer_holds.add_entity_data 100 hugeBuffer

theorem hugeRenderer_send :
    hugeRenderer.send_gpu_data exampleContext =
      Except.ok (syncResult hugeRenderer exampleContext) := by
  obtain ⟨r1, gl1, e, -⟩ := hugeRenderer_holds.send_gpu_data exampleContext
  rw [syncResult_of_ok e, e]

theorem hugeRenderer_entity_data : hugeRenderer.entity_data_ = [(100, [hugeBuffer])] :=
  hugeRenderer_holds.2.2.2.1

theorem hugeRenderer_invariant :
    ∀ b ∈ traversal hugeRenderer.entity_data_, vertexCountInvariant b := by
  rw [hugeRenderer_entity_data]
  intro b hb
  simp only [traversal, List.append_nil, List.mem_singleton] at hb
  rw [hb]
  exact hugeBuffer_invariant

theorem totalBytes_single (k : BUFFER_TYPE) (e : EntityPtr) (b : DrawBuffer) :
    totalBytes k [(e, [b])] = gpuSize k b := by
  simp [totalBytes, traversal]

theorem gpuSize_vertex_of_length (b : DrawBuffer) (count : Nat)
    (h : b.get_vertices.getData.length = count) : gpuSize BUFFER_TYPE.VERTEX b = 12 * count := by
  subst h; rfl

theorem uploads_single_vertex (e : EntityPtr) (b : DrawBuffer) (count : Nat)
    (h : b.get_vertices.getData.length = count) :
    uploads (uploadCalls BUFFER_TYPE.VERTEX (traversal [(e, [b])]) 0) = [(0, 12 * count)] := by
  subst h
  simp [traversal, uploadCalls, uploads]

theorem hugeRenderer_totalBytes :
    totalBytes BUFFER_TYPE.VERTEX hugeRenderer.entity_data_ = 4294967304 := by
  rw [hugeRenderer_entity_data, totalBytes_single,
    gpuSize_vertex_of_length _ _ hugeBuffer_vertices_length]

/-! ## C1: the sizes passed to `allocateMemory` -/

/-- C1, amended. In a synchronisation that completes, on an aggregate whose draw
buffers satisfy the vertex-count invariant, `send_gpu_data` passes to
`allocateMemory` on the buffer of each category exactly one size: the sum over all
entities and draw buffers of `elementSize(category) × vertexCount`, reduced modulo
`2^32` (the sizes are accumulated in `unsigned`); it is the sum itself whenever the
sum is below `2^32`. -/
theorem allocateGPUMemory_sizes (r : ConcreteRenderer) (gl : GLContext)
    (x : ConcreteRenderer × GLContext) (h : r.send_gpu_data gl = Except.ok x)
    (hinv : ∀ b ∈ traversal r.entity_data_, vertexCountInvariant b) (k : BUFFER_TYPE) :
    allocatedSizes k r gl = Except.ok [specCapacity k r.entity_data_ % UNSIGNED_RANGE] ∧
      (specCapacity k r.entity_data_ < UNSIGNED_RANGE →
        allocatedSizes k r gl = Except.ok [specCapacity k r.entity_data_]) := by
  have e := allocatedSizes_of_ok h k
  rw [totalBytes_eq_specCapacity k _ hinv] at e
  refine ⟨e, fun hlt => ?_⟩
  rw [e, Nat.mod_eq_of_lt hlt]

/-- C1, witness: the bar renderer (one entity, one buffer of 36 vertices); the
position buffer is allocated with 432 bytes. -/
theorem allocateGPUMemory_sizes_witness :
    exampleBarRenderer.send_gpu_data exampleContext =
        Except.ok (syncResult exampleBarRenderer exampleContext) ∧
      (∀ b ∈ traversal exampleBarRenderer.entity_data_, vertexCountInvariant b) ∧
      specCapacity BUFFER_TYPE.VERTEX exampleBarRenderer.entity_data_ = 432 ∧
      allocatedSizes BUFFER_TYPE.VERTEX exampleBarRenderer exampleContext =
        Except.ok [specCapacity BUFFER_TYPE.VERTEX exampleBarRenderer.entity_data_] :=
  ⟨exampleBarRenderer_send, by decide, by decide,
    (allocateGPUMemory_sizes exampleBarRenderer exampleContext _ exampleBarRenderer_send
      (by decide) BUFFER_TYPE.VERTEX).2 (by decide)⟩

/-- C1, counterexample: one entity with one draw buffer of 357913942 vertices (the
vertex-count invariant holds). The spec's sum for positions is 4294967304 bytes;
`send_gpu_data` passes 8 to `allocateMemory`. -/
theorem allocateGPUMemory_sizes_wrap :
    (∀ b ∈ traversal hugeRenderer.entity_data_, vertexCountInvariant b) ∧
      specCapacity BUFFER_TYPE.VERTEX hugeRenderer.entity_data_ = 4294967304 ∧
      allocatedSizes BUFFER_TYPE.VERTEX hugeRenderer exampleContext = Except.ok [8] := by
  refine ⟨hugeRenderer_invariant, ?_, ?_⟩
  · rw [← totalBytes_eq_specCapacity _ _ hugeRenderer_invariant, hugeRenderer_totalBytes]
  · rw [allocatedSizes_of_ok hugeRenderer_send, hugeRenderer_totalBytes]
    rfl

/-! ## C2: the draw count -/

/-- C2. Whatever the renderer state before, after `send_gpu_data` completes the
draw count `points_to_draw_` is the sum of the vertex counts (numbers of
positions) of all draw buffers of the aggregate; the aggregate is unchanged, and a
second `send_gpu_data` completes and gives the same count (it does not double). -/
theorem send_gpu_data_draw_count (r r1 : ConcreteRenderer) (gl gl1 : GLContext)
    (h : r.send_gpu_data gl = Except.ok (r1, gl1)) :
    r1.points_to_draw_ = totalVertexCount r.entity_data_ ∧
      r1.entity_data_ = r.entity_data_ ∧
      ∀ gl2 : GLContext, ∃ r2 gl3, r1.send_gpu_data gl2 = Except.ok (r2, gl3) ∧
        r2.points_to_draw_ = totalVertexCount r.entity_data_ := by
  obtain ⟨s, v, n, c, -, h1, -, -⟩ := send_gpu_data_ok h
  refine ⟨h1.2.2.1, h1.2.2.2.1, fun gl2 => ?_⟩
  obtain ⟨r2, gl3, e, h2, -, -⟩ := h1.send_gpu_data gl2
  exact ⟨r2, gl3, e, h2.2.2.1⟩

/-- C2, witness: the bar renderer, whose draw count after synchronising is 36. -/
theorem send_gpu_data_draw_count_witness :
    exampleBarRenderer.send_gpu_data exampleContext =
        Except.ok (syncResult exampleBarRenderer exampleContext) ∧
      totalVertexCount exampleBarRenderer.entity_data_ = 36 ∧
      (syncResult exampleBarRenderer exampleContext).1.points_to_draw_ =
        totalVertexCount exampleBarRenderer.entity_data_ :=
  ⟨exampleBarRenderer_send, by decide,
    (send_gpu_data_draw_count exampleBarRenderer _ exampleContext _ exampleBarRenderer_send).1⟩

/-! ## C3: the packing of the uploads -/

/-- C3, amended. In a synchronisation that completes, for each category whose
byte total over the aggregate is below `2^32`: the uploads of `populateBuffers`
write, one per draw buffer in traversal order, the ranges `[offset_i, offset_i +
size_i)` with `offset_0 = 0` and `offset_{i+1} = offset_i + size_i`; the ranges of
two distinct draw buffers are disjoint, consecutive ranges are adjacent, every
range ends at or before the capacity allocated in the same synchronisation, the
ranges cover exactly `[0, capacity)`, and a second synchronisation uploads the same
ranges. -/
theorem populateBuffers_packing (r : ConcreteRenderer) (gl : GLContext)
    (x : ConcreteRenderer × GLContext) (h : r.send_gpu_data gl = Except.ok x) (k : BUFFER_TYPE)
    (hfit : totalBytes k r.entity_data_ < UNSIGNED_RANGE) :
    ∃ (U : List (Nat × Nat)) (capacity : Nat),
      uploadedRanges k r gl = Except.ok U ∧
      allocatedSizes k r gl = Except.ok [capacity] ∧
      U = packed 0 ((traversal r.entity_data_).map (gpuSize k)) ∧
      (∀ o s : Nat, U[0]? = some (o, s) → o = 0) ∧
      (∀ i o s o2 s2 : Nat, U[i]? = some (o, s) → U[i + 1]? = some (o2, s2) → o2 = o + s) ∧
      (∀ i j oi si oj sj : Nat, i ≠ j → U[i]? = some (oi, si) → U[j]? = some (oj, sj) →
        ∀ byte : Nat, ¬ ((oi ≤ byte ∧ byte < oi + si) ∧ (oj ≤ byte ∧ byte < oj + sj))) ∧
      (∀ i o s : Nat, U[i]? = some (o, s) → o + s ≤ capacity) ∧
      (∀ byte : Nat, byte < capacity ↔ ∃ i o s : Nat, U[i]? = some (o, s) ∧ o ≤ byte ∧ byte < o + s) ∧
      (∀ gl2 : GLContext, uploadedRanges k x.1 gl2 = Except.ok U) := by
  have hU := uploadedRanges_of_ok h k
  rw [uploads_uploadCalls k _ 0 (by simpa [totalBytes] using hfit)] at hU
  have hA := allocatedSizes_of_ok h k
  rw [Nat.mod_eq_of_lt hfit] at hA
  refine ⟨_, _, hU, hA, rfl, ?_, ?_, ?_, ?_, ?_, ?_⟩
  · intro o s h0
    cases hs : (traversal r.entity_data_).map (gpuSize k) with
    | nil => rw [hs] at h0; simp [packed] at h0
    | cons a rest =>
      rw [hs] at h0
      simp only [packed, List.getElem?_cons_zero, Option.some.injEq, Prod.mk.injEq] at h0
      exact h0.1.symm
  · intro i o s o2 s2 h1 h2
    exact packed_adjacent _ _ _ _ _ _ _ h1 h2
  · intro i j oi si oj sj hij hi hj byte hb
    rcases Nat.lt_or_gt_of_ne hij with hlt | hgt
    · have := packed_disjoint_lt _ _ _ _ _ _ _ _ hlt hi hj
      omega
    · have := packed_disjoint_lt _ _ _ _ _ _ _ _ hgt hj hi
      omega
  · intro i o s hi
    have := (packed_bounds _ _ _ _ _ hi).2
    simpa [totalBytes] using this
  · intro byte
    have := packed_cover 0 ((traversal r.entity_data_).map (gpuSize k)) byte
    simpa [totalBytes] using this
  · intro gl2
    obtain ⟨r1, gl1⟩ := x
    obtain ⟨s, v, n, c, -, h1, -, -⟩ := send_gpu_data_ok h
    obtain ⟨r2, gl3, e, -⟩ := h1.send_gpu_data gl2
    have hU2 := uploadedRanges_of_ok e k
    have he : r1.entity_data_ = r.entity_data_ := h1.2.2.2.1
    rw [he, uploads_uploadCalls k _ 0 (by simpa [totalBytes] using hfit)] at hU2
    exact hU2

/-- C3, witness: the bar renderer; its position data is uploaded as the one range
(0, 432). -/
theorem populateBuffers_packing_witness :
    exampleBarRenderer.send_gpu_data exampleContext =
        Except.ok (syncResult exampleBarRenderer exampleContext) ∧
      totalBytes BUFFER_TYPE.VERTEX exampleBarRenderer.entity_data_ < UNSIGNED_RANGE ∧
      uploadedRanges BUFFER_TYPE.VERTEX exampleBarRenderer exampleContext = Except.ok [(0, 432)] := by
  obtain ⟨U, capacity, hU, -, hp, -⟩ :=
    populateBuffers_packing exampleBarRenderer exampleContext _ exampleBarRenderer_send
      BUFFER_TYPE.VERTEX (by decide)
  refine ⟨exampleBarRenderer_send, by decide, ?_⟩
  rw [hU, hp]
  rfl

/-- C3, counterexample: one entity with one draw buffer of 357913942 vertices (the
vertex-count invariant holds). The position buffer is allocated with 8 bytes and
the upload writes 4294967304 bytes at offset 0: the range ends after the capacity. -/
theorem populateBuffers_packing_wrap :
    (∀ b ∈ traversal hugeRenderer.entity_data_, vertexCountInvariant b) ∧
      allocatedSizes BUFFER_TYPE.VERTEX hugeRenderer exampleContext = Except.ok [8] ∧
      uploadedRanges BUFFER_TYPE.VERTEX hugeRenderer exampleContext =
        Except.ok [(0, 4294967304)] ∧
      ¬ (0 + 4294967304 ≤ 8) := by
  refine ⟨hugeRenderer_invariant, ?_, ?_, by decide⟩
  · rw [allocatedSizes_of_ok hugeRenderer_send, hugeRenderer_totalBytes]
    rfl
  · rw [uploadedRanges_of_ok hugeRenderer_send, hugeRenderer_entity_data,
      uploads_single_vertex _ _ _ hugeBuffer_vertices_length]

/-! ## C4: registration -/

/-- C4. `add_entity_data(e, b)`: when `e` has no entry its list becomes `[b]`; when
`e` has the list `L` its list becomes `L` followed by `b`; the lists of all other
entities are unchanged; the buffers of the aggregate afterwards are those before
together with `b`, counted with multiplicity (nothing is dropped or merged); and
registering `b` then `b2` under a new entity gives `[b, b2]`. -/
theorem add_entity_data_appends (r : ConcreteRenderer) (e : EntityPtr) (b : DrawBuffer) :
    (find e r.entity_data_ = none →
        find e (r.add_entity_data e b).entity_data_ = some [b]) ∧
      (∀ L : List DrawBuffer, find e r.entity_data_ = some L →
        find e (r.add_entity_data e b).entity_data_ = some (L ++ [b])) ∧
      (∀ e2 : EntityPtr, e2 ≠ e →
        find e2 (r.add_entity_data e b).entity_data_ = find e2 r.entity_data_) ∧
      (traversal (r.add_entity_data e b).entity_data_).Perm (b :: traversal r.entity_data_) ∧
      (∀ b2 : DrawBuffer, find e r.entity_data_ = none →
        find e ((r.add_entity_data e b).add_entity_data e b2).entity_data_ = some [b, b2]) := by
  have hnone : find e r.entity_data_ = none →
      find e (r.add_entity_data e b).entity_data_ = some [b] := by
    intro h
    rw [add_entity_data_entity_data, h]
    exact find_entityInsert_same e [b] _ h
  have hsome : ∀ (r : ConcreteRenderer) (b : DrawBuffer) (L : List DrawBuffer),
      find e r.entity_data_ = some L →
      find e (r.add_entity_data e b).entity_data_ = some (L ++ [b]) := by
    intro r b L h
    rw [add_entity_data_entity_data, h]
    simp only [find_modifyFound_same, h, Option.map_some']
  refine ⟨hnone, hsome r b, ?_, ?_, ?_⟩
  · intro e2 he2
    rw [add_entity_data_entity_data]
    cases h : find e r.entity_data_ with
    | none => exact find_entityInsert_other e e2 [b] _ he2
    | some L => exact find_modifyFound_other e e2 _ _ he2
  · rw [add_entity_data_entity_data]
    cases h : find e r.entity_data_ with
    | none => exact traversal_entityInsert e b _ h
    | some L => exact traversal_modifyFound e b _ L h
  · intro b2 h
    exact hsome _ b2 [b] (hnone h)

/-- C4, witness: on the example renderer (no entity registered) the 12-vertex
buffer is registered twice under the entity at address 100. -/
theorem add_entity_data_appends_witness :
    find 100 exampleRenderer.entity_data_ = none ∧
      find 100 ((exampleRenderer.add_entity_data 100 twelveBuffer).add_entity_data 100
        twelveBuffer).entity_data_ = some [twelveBuffer, twelveBuffer] :=
  ⟨rfl, (add_entity_data_appends exampleRenderer 100 twelveBuffer).2.2.2.2 twelveBuffer rfl⟩

/-! ## C5: the error poller -/

/-- C5, the code at a failing input: with `GL_INVALID_ENUM` and `GL_INVALID_VALUE`
pending, `getError` returns no string at all, where the spec's `drain` returns
"Invalid enum." and "Invalid function value.". -/
theorem getError_drops_pending_codes :
    (getError { errors := [GL_INVALID_ENUM, GL_INVALID_VALUE],
                attribLocation := fun _ _ => 0 }).1 = [] ∧
      drainSpec [GL_INVALID_ENUM, GL_INVALID_VALUE] =
        ["Invalid enum.", "Invalid function value."] := by
  constructor
  · exact getError_fst _
  · decide

/-! ## C7: the getters of the three buffers -/

/-- C7. For every table `vbos_` and every category: the getter returns the buffer
stored under the category when the entry exists and is not null, and otherwise
throws the exception of that category; it fails exactly when the entry is missing
or null; the three exceptions are pairwise distinct; on a freshly constructed
renderer the three getters return the three buffers it was built with. -/
theorem get_vbo_characterisation :
    (∀ (r : ConcreteRenderer) (k : BUFFER_TYPE),
      getVBO k r = (match find k r.vbos_ with
        | some (some vbo) => Except.ok vbo
        | _ => Except.error (notFound k)) ∧
      ((∃ e, getVBO k r = Except.error e) ↔
        (find k r.vbos_ = none ∨ find k r.vbos_ = some none))) ∧
    (notFound BUFFER_TYPE.VERTEX = RendererException.VertexBufferNotFoundException ∧
      notFound BUFFER_TYPE.NORMAL = RendererException.NormalBufferNotFoundException ∧
      notFound BUFFER_TYPE.COLOUR = RendererException.ColourBufferNotFoundException ∧
      notFound BUFFER_TYPE.VERTEX ≠ notFound BUFFER_TYPE.NORMAL ∧
      notFound BUFFER_TYPE.VERTEX ≠ notFound BUFFER_TYPE.COLOUR ∧
      notFound BUFFER_TYPE.NORMAL ≠ notFound BUFFER_TYPE.COLOUR) ∧
    (∀ (vao : VAO) (v n c : VBO),
      (ConcreteRenderer.construct vao v n c)._get_vertex_vbo = Except.ok v ∧
      (ConcreteRenderer.construct vao v n c)._get_normal_vbo = Except.ok n ∧
      (ConcreteRenderer.construct vao v n c)._get_colour_vbo = Except.ok c) := by
  refine ⟨fun r k => ?_, ⟨rfl, rfl, rfl, by decide, by decide, by decide⟩, fun vao v n c => ?_⟩
  · cases k <;>
      simp only [getVBO, _get_vertex_vbo, _get_normal_vbo, _get_colour_vbo, notFound] <;>
      rcases find _ r.vbos_ with _ | _ | vbo <;> simp
  · have h := construct_holds vao v n c
    exact ⟨h.get_vertex, h.get_normal, h.get_colour⟩

/-! ## C6 and C9: the attribute set-up -/

theorem get_vertex_vbo_ok {r : ConcreteRenderer} {v : VBO} (h : r._get_vertex_vbo = Except.ok v) :
    find BUFFER_TYPE.VERTEX r.vbos_ = some (some v) := by
  unfold _get_vertex_vbo at h
  rcases hf : find BUFFER_TYPE.VERTEX r.vbos_ with _ | _ | vbo <;> rw [hf] at h <;> simp at h
  rw [h]

theorem get_normal_vbo_ok {r : ConcreteRenderer} {v : VBO} (h : r._get_normal_vbo = Except.ok v) :
    find BUFFER_TYPE.NORMAL r.vbos_ = some (some v) := by
  unfold _get_normal_vbo at h
  rcases hf : find BUFFER_TYPE.NORMAL r.vbos_ with _ | _ | vbo <;> rw [hf] at h <;> simp at h
  rw [h]

theorem get_colour_vbo_ok {r : ConcreteRenderer} {v : VBO} (h : r._get_colour_vbo = Except.ok v) :
    find BUFFER_TYPE.COLOUR r.vbos_ = some (some v) := by
  unfold _get_colour_vbo at h
  rcases hf : find BUFFER_TYPE.COLOUR r.vbos_ with _ | _ | vbo <;> rw [hf] at h <;> simp at h
  rw [h]

theorem toGLuint_neg_one : toGLuint (-1) = 4294967295 := by decide

/-- C6, amended. `send_gpu_data` does not check the slot that `glGetAttribLocation`
returns: on a renderer that holds a shader and its three buffers it completes
without an error, and for each of "aPos", "aNor", "aCol" that does not resolve
(slot -1) it passes that value, converted to `GLuint` (4294967295), to
`glVertexAttribPointer`. -/
theorem unresolved_slot_is_passed (r : ConcreteRenderer) (gl : GLContext) (s : ShaderProgram)
    (v n c : VBO) (hs : r.get_shader = some s) (hv : r._get_vertex_vbo = Except.ok v)
    (hn : r._get_normal_vbo = Except.ok n) (hc : r._get_colour_vbo = Except.ok c) :
    ∃ after : ConcreteRenderer × GLContext, r.send_gpu_data gl = Except.ok after ∧
      (glGetAttribLocation gl s.get_address "aPos" = -1 →
        GLCall.glVertexAttribPointer 4294967295 3 VERTEX_TYPE.FLOAT false 0 0 ∈ after.2.calls) ∧
      (glGetAttribLocation gl s.get_address "aNor" = -1 →
        GLCall.glVertexAttribPointer 4294967295 3 VERTEX_TYPE.FLOAT false 0 0 ∈ after.2.calls) ∧
      (glGetAttribLocation gl s.get_address "aCol" = -1 →
        GLCall.glVertexAttribPointer 4294967295 4 VERTEX_TYPE.FLOAT true 0 0 ∈ after.2.calls) := by
  have h : Holds r (some s) r.vao_ r.points_to_draw_ r.entity_data_ v n c :=
    ⟨hs, rfl, rfl, rfl, get_vertex_vbo_ok hv, get_normal_vbo_ok hn, get_colour_vbo_ok hc⟩
  obtain ⟨r1, gl1, e, -, hcalls, -⟩ := h.send_gpu_data gl
  refine ⟨(r1, gl1), e, ?_, ?_, ?_⟩ <;> intro hloc <;>
    simp only [glGetAttribLocation, ShaderProgram.get_address] at hloc <;>
    simp [hcalls, syncCalls, hloc, toGLuint_neg_one]

/-- C6, witness: the example renderer in a context where no attribute name
resolves. -/
theorem unresolved_slot_is_passed_witness :
    ∃ after : ConcreteRenderer × GLContext,
      exampleRenderer.send_gpu_data unresolvedContext = Except.ok after ∧
      GLCall.glVertexAttribPointer 4294967295 3 VERTEX_TYPE.FLOAT false 0 0 ∈ after.2.calls := by
  obtain ⟨after, e, h1, -, -⟩ :=
    unresolved_slot_is_passed exampleRenderer unresolvedContext exampleShader
      { id := 1 } { id := 2 } { id := 3 } rfl rfl rfl rfl
  exact ⟨after, e, h1 rfl⟩

theorem driverCalls_of_holds {r : ConcreteRenderer} {s : ShaderProgram} {vao pts ed v n c}
    (h : Holds r (some s) vao pts ed v n c) (gl : GLContext) :
    driverCalls r gl = Except.ok (gl.calls ++ syncCalls gl s vao v n c) := by
  obtain ⟨r1, gl1, e, -, hcalls, -⟩ := h.send_gpu_data gl
  simp [driverCalls, e, Except.map, hcalls]

/-- C6, counterexample: the example renderer with a shader in which none of "aPos",
"aNor", "aCol" resolves. `send_gpu_data` raises no error; it completes, and the
invalid slot (-1, as `GLuint` 4294967295) is passed to `glVertexAttribPointer`
three times. -/
theorem unresolved_slot_no_error :
    glGetAttribLocation unresolvedContext exampleShader.get_address "aPos" = -1 ∧
      driverCalls exampleRenderer unresolvedContext = Except.ok
        [ GLCall.use 7,
          GLCall.glBindVertexArray 1,
          GLCall.glBindBuffer GL_ARRAY_BUFFER 1,
          GLCall.glVertexAttribPointer 4294967295 3 VERTEX_TYPE.FLOAT false 0 0,
          GLCall.glBindBuffer GL_ARRAY_BUFFER 0,
          GLCall.glBindBuffer GL_ARRAY_BUFFER 2,
          GLCall.glVertexAttribPointer 4294967295 3 VERTEX_TYPE.FLOAT false 0 0,
          GLCall.glBindBuffer GL_VERTEX_ARRAY 0,
          GLCall.glBindBuffer GL_ARRAY_BUFFER 3,
          GLCall.glVertexAttribPointer 4294967295 4 VERTEX_TYPE.FLOAT true 0 0,
          GLCall.glBindBuffer GL_VERTEX_ARRAY 0,
          GLCall.unuse 7 ] := by
  refine ⟨rfl, ?_⟩
  rw [driverCalls_of_holds exampleRenderer_holds]
  rfl

/-- C9. In every synchronisation that completes, with `s` the shader and `v`, `n`,
`c` the buffers of the three categories: the driver calls are exactly the listed
ones, so that each `glVertexAttribPointer` follows the binding of its own
category's buffer and carries position "aPos" = (3, FLOAT, not normalised, stride
0, offset 0), normal "aNor" = (3, FLOAT, not normalised, stride 0, offset 0),
colour "aCol" = (4, FLOAT, normalised, stride 0, offset 0); and the three (buffer,
descriptor) pairs are recorded, in that order, on the vertex-array object. -/
theorem attribute_descriptors (r r1 : ConcreteRenderer) (gl gl1 : GLContext)
    (h : r.send_gpu_data gl = Except.ok (r1, gl1)) :
    ∃ (s : ShaderProgram) (v n c : VBO),
      r.get_shader = some s ∧
      r1._get_vertex_vbo = Except.ok v ∧
      r1._get_normal_vbo = Except.ok n ∧
      r1._get_colour_vbo = Except.ok c ∧
      gl1.calls = gl.calls ++
        [ GLCall.use s.get_address,
          GLCall.glBindVertexArray r.vao_.getId,
          GLCall.glBindBuffer GL_ARRAY_BUFFER v.getId,
          GLCall.glVertexAttribPointer (toGLuint (glGetAttribLocation gl s.get_address "aPos")) 3
            VERTEX_TYPE.FLOAT false 0 0,
          GLCall.glBindBuffer GL_ARRAY_BUFFER 0,
          GLCall.glBindBuffer GL_ARRAY_BUFFER n.getId,
          GLCall.glVertexAttribPointer (toGLuint (glGetAttribLocation gl s.get_address "aNor")) 3
            VERTEX_TYPE.FLOAT false 0 0,
          GLCall.glBindBuffer GL_VERTEX_ARRAY 0,
          GLCall.glBindBuffer GL_ARRAY_BUFFER c.getId,
          GLCall.glVertexAttribPointer (toGLuint (glGetAttribLocation gl s.get_address "aCol")) 4
            VERTEX_TYPE.FLOAT true 0 0,
          GLCall.glBindBuffer GL_VERTEX_ARRAY 0,
          GLCall.unuse s.get_address ] ∧
      r1.vao_.getId = r.vao_.getId ∧
      r1.vao_.configs = r.vao_.configs ++
        [ (v, { offset := 0, size := 3, normalised := false, stride := 0,
                type := VERTEX_TYPE.FLOAT }),
          (n, { offset := 0, size := 3, normalised := false, stride := 0,
                type := VERTEX_TYPE.FLOAT }),
          (c, { offset := 0, size := 4, normalised := true, stride := 0,
                type := VERTEX_TYPE.FLOAT }) ] := by
  obtain ⟨s, v, n, c, h0, h1, hcalls, -⟩ := send_gpu_data_ok h
  refine ⟨s, _, _, _, h0.1, h1.get_vertex, h1.get_normal, h1.get_colour, ?_, ?_, ?_⟩
  · rw [hcalls]; rfl
  · rw [h1.2.1]; rfl
  · rw [h1.2.1]; rfl

/-- C9, witness: the bar renderer; after synchronising its vertex-array object
holds three recorded pairs. -/
theorem attribute_descriptors_witness :
    exampleBarRenderer.send_gpu_data exampleContext =
        Except.ok (syncResult exampleBarRenderer exampleContext) ∧
      (syncResult exampleBarRenderer exampleContext).1.vao_.configs.map Prod.snd =
        [ { offset := 0, size := 3, normalised := false, stride := 0, type := VERTEX_TYPE.FLOAT },
          { offset := 0, size := 3, normalised := false, stride := 0, type := VERTEX_TYPE.FLOAT },
          { offset := 0, size := 4, normalised := true, stride := 0, type := VERTEX_TYPE.FLOAT } ] := by
  obtain ⟨s, v, n, c, -, -, -, -, -, -, hconf⟩ :=
    attribute_descriptors exampleBarRenderer (syncResult exampleBarRenderer exampleContext).1
      exampleContext (syncResult exampleBarRenderer exampleContext).2 exampleBarRenderer_send
  refine ⟨exampleBarRenderer_send, ?_⟩
  rw [hconf]
  rfl

/-! ## C8: two entities -/

theorem registerTwo_entity_data (vao : VAO) (v n c : VBO) (s : ShaderProgram) (e1 e2 : EntityPtr)
    (b1 b2 : DrawBuffer) (hne : e1 ≠ e2) :
    (registerTwo vao v n c s e1 b1 e2 b2).entity_data_ =
      if e1 < e2 then [(e1, [b1]), (e2, [b2])] else [(e2, [b2]), (e1, [b1])] := by
  have h1 : (((ConcreteRenderer.construct vao v n c).set_shader (some s)).add_entity_data
      e1 b1).entity_data_ = [(e1, [b1])] := rfl
  unfold registerTwo
  rw [add_entity_data_entity_data, h1]
  have hne2 : ¬ e2 = e1 := fun h => hne h.symm
  by_cases hlt : e1 < e2
  · have : ¬ e2 < e1 := Nat.lt_asymm hlt
    simp [find, hne2, entityInsert, hlt, this]
  · have : e2 < e1 := Nat.lt_of_le_of_ne (Nat.le_of_not_lt hlt) hne2
    simp [find, hne2, entityInsert, hlt, this]

theorem registerTwo_holds (vao : VAO) (v n c : VBO) (s : ShaderProgram) (e1 e2 : EntityPtr)
    (b1 b2 : DrawBuffer) :
    Holds (registerTwo vao v n c s e1 b1 e2 b2) (some s) vao 0
      (registerTwo vao v n c s e1 b1 e2 b2).entity_data_ v n c :=
  ((((construct_holds vao v n c).set_shader (some s)).add_entity_data e1 b1).add_entity_data e2 b2)

theorem drawCount_of_holds {r : ConcreteRenderer} {s : ShaderProgram} {vao pts ed v n c}
    (h : Holds r (some s) vao pts ed v n c) (gl : GLContext) :
    drawCount r gl = Except.ok (totalVertexCount ed) := by
  obtain ⟨r1, gl1, e, h1, -, -⟩ := h.send_gpu_data gl
  simp [drawCount, e, Except.map, h1.2.2.1]

theorem issuedCalls_of_holds {r : ConcreteRenderer} {s : ShaderProgram} {vao pts ed v n c}
    (h : Holds r (some s) vao pts ed v n c) (gl : GLContext) (k : BUFFER_TYPE) :
    issuedCalls k r gl = Except.ok (VBOCall.allocateMemory (totalBytes k ed % UNSIGNED_RANGE) ::
      uploadCalls k (traversal ed) 0) := by
  obtain ⟨r1, gl1, e, -⟩ := h.send_gpu_data gl
  have := issuedCalls_of_ok e k
  rw [h.2.2.2.1] at this
  exact this

theorem allocatedSizes_of_holds {r : ConcreteRenderer} {s : ShaderProgram} {vao pts ed v n c}
    (h : Holds r (some s) vao pts ed v n c) (gl : GLContext) (k : BUFFER_TYPE) :
    allocatedSizes k r gl = Except.ok [totalBytes k ed % UNSIGNED_RANGE] := by
  simp [allocatedSizes, issuedCalls_of_holds h gl k, Except.map, allocations,
    allocations_uploadCalls]

/-- C8, amended. Two distinct entities registered in the order `e1`, `e2` on a
fresh renderer, `e1` with one draw buffer of 36 vertices and `e2` with one of 12:
after `send_gpu_data` the draw count is 48 and the position buffer is allocated
with 576 bytes. The position data of `e2` is uploaded at byte offset 432 when `e1`
precedes `e2` in the key order of the map; otherwise it is uploaded at offset 0
and the data of `e1` at offset 144. Packing follows the map's key order. -/
theorem two_entities_packing (vao : VAO) (v n c : VBO) (s : ShaderProgram) (gl : GLContext)
    (e1 e2 : EntityPtr) (b1 b2 : DrawBuffer) (hne : e1 ≠ e2)
    (h1 : vertexCount b1 = 36) (h2 : vertexCount b2 = 12) :
    drawCount (registerTwo vao v n c s e1 b1 e2 b2) gl = Except.ok 48 ∧
      issuedCalls BUFFER_TYPE.VERTEX (registerTwo vao v n c s e1 b1 e2 b2) gl = Except.ok
        (if e1 < e2 then
          [ VBOCall.allocateMemory 576,
            VBOCall.addData3 b1.get_vertices.getData 0,
            VBOCall.addData3 b2.get_vertices.getData 432 ]
        else
          [ VBOCall.allocateMemory 576,
            VBOCall.addData3 b2.get_vertices.getData 0,
            VBOCall.addData3 b1.get_vertices.getData 144 ]) := by
  have hh := registerTwo_holds vao v n c s e1 e2 b1 b2
  have g1 : gpuSize BUFFER_TYPE.VERTEX b1 = 432 := by
    rw [gpuSize_vertex_of_length b1 36 h1]
  have g2 : gpuSize BUFFER_TYPE.VERTEX b2 = 144 := by
    rw [gpuSize_vertex_of_length b2 12 h2]
  rw [drawCount_of_holds hh, issuedCalls_of_holds hh, registerTwo_entity_data _ _ _ _ _ _ _ _ _ hne]
  by_cases hlt : e1 < e2
  · simp [hlt, totalVertexCount, totalBytes, traversal, h1, h2, g1, g2, uploadCalls, unsignedAdd,
      UNSIGNED_RANGE]
  · simp [hlt, totalVertexCount, totalBytes, traversal, h1, h2, g1, g2, uploadCalls, unsignedAdd,
      UNSIGNED_RANGE]

/-- C8, witness: the bar buffer under the entity at address 100, then the
12-vertex buffer under the entity at address 200; the second entity's positions
are uploaded at offset 432. -/
theorem two_entities_packing_witness :
    (100 : EntityPtr) ≠ 200 ∧ vertexCount RenderBuilder.barBuffer = 36 ∧
      vertexCount twelveBuffer = 12 ∧
      issuedCalls BUFFER_TYPE.VERTEX
        (registerTwo { id := 1 } { id := 1 } { id := 2 } { id := 3 } exampleShader
          100 RenderBuilder.barBuffer 200 twelveBuffer) exampleContext = Except.ok
          [ VBOCall.allocateMemory 576,
            VBOCall.addData3 RenderBuilder.barBuffer.get_vertices.getData 0,
            VBOCall.addData3 twelveBuffer.get_vertices.getData 432 ] :=
  ⟨by decide, by decide, by decide,
    (two_entities_packing { id := 1 } { id := 1 } { id := 2 } { id := 3 } exampleShader
      exampleContext 100 200 RenderBuilder.barBuffer twelveBuffer (by decide) (by decide)
      (by decide)).2⟩

/-- C8, counterexample: the 36-vertex bar buffer is registered first, under the
entity at address 200, the 12-vertex buffer second, under the entity at address
100. After `send_gpu_data` the position data of the entity registered second is
uploaded at byte offset 0, not 432; the data of the first is at offset 144. -/
theorem second_entity_packed_first :
    vertexCount RenderBuilder.barBuffer = 36 ∧ vertexCount twelveBuffer = 12 ∧
      issuedCalls BUFFER_TYPE.VERTEX reversedRenderer exampleContext = Except.ok
        [ VBOCall.allocateMemory 576,
          VBOCall.addData3 twelveBuffer.get_vertices.getData 0,
          VBOCall.addData3 RenderBuilder.barBuffer.get_vertices.getData 144 ] := by
  refine ⟨by decide, by decide, ?_⟩
  have hh : Holds reversedRenderer (some exampleShader) { id := 1 } 0
      reversedRenderer.entity_data_ { id := 1 } { id := 2 } { id := 3 } :=
    registerTwo_holds _ _ _ _ _ _ _ _ _
  have he : reversedRenderer.entity_data_ =
      [(100, [twelveBuffer]), (200, [RenderBuilder.barBuffer])] := rfl
  rw [issuedCalls_of_holds hh, he]
  rfl

/-! ## C10: the bar renderer -/

/-- C10, amended. The renderer returned by `buildBarRenderer` holds exactly one
entity with exactly one draw buffer, whose position, normal and colour sequences
all have length 36 (the vertex-count invariant holds with N = 36); once a shader
is set on it, `send_gpu_data` gives the draw count 36 and allocates 432 bytes for
positions, 432 bytes for normals and 576 bytes for colours. -/
theorem buildBarRenderer_synchronised (vao : VAO) (v n c : VBO) (barTopEntity : EntityPtr) :
    (RenderBuilder.buildBarRenderer vao v n c barTopEntity).entity_data_ =
        [(barTopEntity, [RenderBuilder.barBuffer])] ∧
      RenderBuilder.barBuffer.get_vertices.getData.length = 36 ∧
      RenderBuilder.barBuffer.get_normals.getData.length = 36 ∧
      RenderBuilder.barBuffer.get_colours.getData.length = 36 ∧
      vertexCountInvariant RenderBuilder.barBuffer ∧
      ∀ (s : ShaderProgram) (gl : GLContext),
        drawCount ((RenderBuilder.buildBarRenderer vao v n c barTopEntity).set_shader (some s)) gl
          = Except.ok 36 ∧
        allocatedSizes BUFFER_TYPE.VERTEX
          ((RenderBuilder.buildBarRenderer vao v n c barTopEntity).set_shader (some s)) gl
          = Except.ok [432] ∧
        allocatedSizes BUFFER_TYPE.NORMAL
          ((RenderBuilder.buildBarRenderer vao v n c barTopEntity).set_shader (some s)) gl
          = Except.ok [432] ∧
        allocatedSizes BUFFER_TYPE.COLOUR
          ((RenderBuilder.buildBarRenderer vao v n c barTopEntity).set_shader (some s)) gl
          = Except.ok [576] := by
  refine ⟨rfl, rfl, rfl, rfl, by decide, fun s gl => ?_⟩
  have hh : Holds ((RenderBuilder.buildBarRenderer vao v n c barTopEntity).set_shader (some s))
      (some s) vao 0 [(barTopEntity, [RenderBuilder.barBuffer])] v n c :=
    ((construct_holds vao v n c).add_entity_data barTopEntity RenderBuilder.barBuffer).set_shader _
  rw [drawCount_of_holds hh, allocatedSizes_of_holds hh, allocatedSizes_of_holds hh,
    allocatedSizes_of_holds hh, totalBytes_single, totalBytes_single, totalBytes_single]
  exact ⟨rfl, rfl, rfl, rfl⟩

/-- C10, counterexample: the renderer exactly as `buildBarRenderer` returns it
(vertex-array object 1, buffers 1, 2, 3, entity at address 100). The builder sets
no shader, so `shader_program_` is null and `send_gpu_data` stops at
`get_shader()->use()`: no draw count 36 and no allocation is obtained. -/
theorem buildBarRenderer_has_no_shader :
    (RenderBuilder.buildBarRenderer { id := 1 } { id := 1 } { id := 2 } { id := 3 } 100).get_shader
        = none ∧
      drawCount (RenderBuilder.buildBarRenderer { id := 1 } { id := 1 } { id := 2 } { id := 3 } 100)
        exampleContext = Except.error RendererException.NullShaderDereference ∧
      allocatedSizes BUFFER_TYPE.VERTEX
        (RenderBuilder.buildBarRenderer { id := 1 } { id := 1 } { id := 2 } { id := 3 } 100)
        exampleContext = Except.error RendererException.NullShaderDereference :=
  ⟨rfl, rfl, rfl⟩

end WavyTune
